import Mathlib

/-!
Verification of the spike1 authentication / extraction orchestration layer.

This file shallowly embeds the Python sources of the repository:
  * `apps/scraper/src/auth/smart_validator.py` (SmartMoodleValidator)
  * `apps/scraper/src/config/bgu_config_updated.py` (BGUAuthenticator)
  * `apps/scraper/src/validators/dev_real_validator.py` (DevMoodleValidator)
  * `services/university-integration/src/main.py` (check_rate_limits)
  * `services/university-integration/src/tasks/scraping_tasks.py`
    (TAUScraper / HUJIScraper stubs, sync_user_data retry policy)
  * `spike-analyzer/unified_moodle_scraper.py` (extract_courses)

Browser pages are modelled as read-only environments (URL, content, a
selector-query function); Playwright calls that may raise are modelled with
explicit `raises` constructors or `Except` values, matching the try/except
structure of the source.  Filling an input is modelled with standard DOM
semantics: `fill v` stores `v` in the element and `input_value` reads it back.
-/

namespace Spike

/-- Substring test on character lists: does `hay` contain `pat` contiguously?
Mirrors the Python `in` operator on strings. -/
def prefixL : List Char → List Char → Bool
  | [], _ => true
  | _ :: _, [] => false
  | a :: as, b :: bs => a == b && prefixL as bs

/-- Auxiliary recursion for `strContains`. -/
def containsL (hay pat : List Char) : Bool :=
  match hay with
  | [] => prefixL pat []
  | _ :: t => prefixL pat hay || containsL t pat

/-- Python `pat in hay` on strings. -/
def strContains (hay pat : String) : Bool :=
  containsL hay.data pat.data

/-- Python `any(p in hay for p in pats)`. -/
def containsAny (hay : String) (pats : List String) : Bool :=
  pats.any (fun p => strContains hay p)

/-- Python `str.lower()`, computed structurally over the character list (the
core `(strLower String)` recurses over byte positions by well-founded recursion,
which kernel reduction cannot evaluate). -/
def strLower (s : String) : String :=
  ⟨s.data.map Char.toLower⟩

/-- Python `str.strip()`: drop whitespace from both ends. -/
def strTrim (s : String) : String :=
  ⟨((s.data.dropWhile Char.isWhitespace).reverse.dropWhile
      Char.isWhitespace).reverse⟩

/-- Python `str.startswith(pre)`. -/
def strStartsWith (s pre : String) : Bool :=
  prefixL pre.data s.data

/-! ## Generic DOM model -/

/-- A DOM element as the scrapers observe it: Playwright `is_visible`,
`is_enabled`, `text_content()` (which may be null). -/
structure Element where
  visible : Bool
  enabled : Bool
  text : Option String
deriving Repr, DecidableEq

/-- Outcome of `page.query_selector(sel)`: an element, `None`, or a raised
exception (the callers wrap each query in try/except). -/
inductive QueryResult where
  | found (e : Element)
  | notFound
  | raises
deriving Repr, DecidableEq

/-- A browser page as a read-only environment: current URL, full HTML content
and the selector-query function. -/
structure Page where
  url : String
  content : String
  query : String → QueryResult

/-! ## SmartMoodleValidator (`smart_validator.py`) -/

/-- The `AuthenticationResult` enum values, as serialized (`.value`). -/
def closedResultKinds : List String :=
  ["success", "invalid_credentials", "network_error", "timeout",
   "captcha_required", "account_locked", "maintenance", "unknown_error"]

/-- The `ValidationResult` dataclass.  `result` is kept as the serialized
string because the TAU/HUJI stubs in `scraping_tasks.py` pass plain strings
where the dataclass annotates the enum (Python does not enforce the
annotation). -/
structure ValidationResult where
  success : Bool
  result : String
  messageHe : String
  messageEn : String
  university : String
  username : String
  errorDetails : Option String := none
deriving Repr, DecidableEq

/-- Environment of one `SmartMoodleValidator.validate_credentials` run.
`Except String α` models a step that may raise (with the exception text) —
mirroring the try/except structure of `_perform_real_login`.
`waitSelector` models `page.wait_for_selector` in `_check_for_errors` and the
success-indicator loop: `none` is a raised timeout (caught and treated as no
match). -/
structure SmartEnv where
  gotoResult : Except String Bool
  waitLoad : Except String Unit
  content : String
  fillForm : Except String Unit
  checkRaises : Option String
  postUrl : String
  postContent : String
  waitSelector : String → Option Element

/-- `error_selectors` of the BGU entry in `UniversityConfig`. -/
def smartErrorSelectors : List String :=
  [".login-error", ".alert-danger", "#loginerrormsg", ".error"]

/-- `success_indicators` of the BGU entry in `UniversityConfig`. -/
def smartSuccessIndicators : List String :=
  [".dashboard", "#page-my-index", ".my-courses", "nav[aria-label=\"Site\"]"]

/-- `SmartMoodleValidator._check_for_errors`: scan the configured error
selectors; on the first non-empty text, translate recognized English errors to
canned Hebrew, otherwise return the raw text stripped. -/
def smartCheckForErrors (env : SmartEnv) : Option String :=
  go smartErrorSelectors
where
  go : List String → Option String
    | [] => none
    | s :: rest =>
      match env.waitSelector s with
      | none => go rest
      | some el =>
        match el.text with
        | none => go rest
        | some t =>
          if (strTrim t) ≠ "" then
            let low := (strLower t)
            if strContains low "invalid" || strContains low "incorrect" then
              some "שם משתמש או סיסמה אינם נכונים"
            else if strContains low "locked" || strContains low "suspended" then
              some "החשבון נחסם או מושעה"
            else if strContains low "captcha" then
              some ("נדרש אימות קפצ\u0027ה")
            else
              some (strTrim t)
          else go rest

/-- The hard-coded `dashboard_keywords` of `_check_login_result`. -/
def smartDashboardKeywords : List String :=
  ["dashboard", "my courses", "הקורסים שלי", "לוח המחוונים"]

/-- Result constructors shared by several branches. -/
def smartInvalidCreds (u msgHe : String) : ValidationResult :=
  { success := false, result := "invalid_credentials", messageHe := msgHe,
    messageEn := "Invalid username or password", university := "bgu",
    username := u }

/-- The SUCCESS result of `_check_login_result`. -/
def smartSuccessResult (u : String) : ValidationResult :=
  { success := true, result := "success",
    messageHe := "התחברות למערכת האוניברסיטה הצליחה",
    messageEn := "Successfully authenticated with university system",
    university := "bgu", username := u }

/-- The aggregate `login_successful` flag of `_check_login_result`: in source
order, the URL no longer containing the login marker, then the configured
success-indicator selectors, then the hard-coded dashboard keywords in the
page content. -/
def smartLoginSuccessful (env : SmartEnv) : Bool :=
  !(strContains (strLower env.postUrl) "login") ||
    smartSuccessIndicators.any (fun ind => (env.waitSelector ind).isSome) ||
    containsAny (strLower env.postContent) smartDashboardKeywords

/-- `SmartMoodleValidator._check_login_result`. -/
def smartCheckLoginResult (env : SmartEnv) (u : String) : ValidationResult :=
  match env.checkRaises with
  | some e =>
    { success := false, result := "unknown_error",
      messageHe := "שגיאה בבדיקת תוצאת ההתחברות: " ++ e,
      messageEn := "Error checking login result: " ++ e,
      university := "bgu", username := u, errorDetails := some e }
  | none =>
    match smartCheckForErrors env with
    | some msg => smartInvalidCreds u msg
    | none =>
      if smartLoginSuccessful env then smartSuccessResult u
      else smartInvalidCreds u "שם משתמש או סיסמה שגויים"

/-- Maintenance keyword scan of `_perform_real_login`. -/
def smartMaintenanceKeywords : List String :=
  ["maintenance", "תחזוקה", "זמנית לא זמין"]

/-- The single except-clause of `_perform_real_login`: an exception whose text
mentions timeout becomes a TIMEOUT result, anything else is re-raised. -/
def smartTimeoutOr (u e : String) : Except String ValidationResult :=
  if strContains (strLower e) "timeout" then
    .ok { success := false, result := "timeout",
          messageHe := "פג זמן החיבור למערכת האוניברסיטה",
          messageEn := "Connection to university system timed out",
          university := "bgu", username := u, errorDetails := some e }
  else .error e

/-- `SmartMoodleValidator._perform_real_login`; `.error e` is an exception
re-raised out of the method (its last `raise`). -/
def smartPerformRealLogin (env : SmartEnv) (u : String) :
    Except String ValidationResult :=
  match env.gotoResult with
  | .error e => smartTimeoutOr u e
  | .ok respOk =>
    if ¬ respOk then
      .ok { success := false, result := "network_error",
            messageHe := "שגיאה בגישה למערכת האוניברסיטה",
            messageEn := "Failed to access university system",
            university := "bgu", username := u }
    else
      match env.waitLoad with
      | .error e => smartTimeoutOr u e
      | .ok () =>
        if containsAny (strLower env.content) smartMaintenanceKeywords then
          .ok { success := false, result := "maintenance",
                messageHe := "המערכת במצב תחזוקה כעת",
                messageEn := "System is under maintenance",
                university := "bgu", username := u }
        else
          match env.fillForm with
          | .error e => smartTimeoutOr u e
          | .ok () => .ok (smartCheckLoginResult env u)

/-- `SmartMoodleValidator.validate_credentials`: any exception escaping
`_perform_real_login` becomes an UNKNOWN_ERROR result. -/
def smartValidateCredentials (env : SmartEnv) (u : String) : ValidationResult :=
  match smartPerformRealLogin env u with
  | .ok r => r
  | .error e =>
    { success := false, result := "unknown_error",
      messageHe := "שגיאה במערכת: " ++ e,
      messageEn := "System error: " ++ e,
      university := "bgu", username := u, errorDetails := some e }

/-! ## TAU / HUJI scraper stubs (`scraping_tasks.py`) -/

/-- `TAUScraper.validate_credentials` (lines 381-392): a stub returning the
string kind `not_implemented`. -/
def tauValidateCredentials (u : String) : ValidationResult :=
  { success := false, result := "not_implemented",
    messageHe := "אימות תל אביב עדיין לא מוטמע",
    messageEn := "TAU validation not yet implemented",
    university := "tau", username := u }

/-- `HUJIScraper.validate_credentials` (lines 407-418): same stub shape. -/
def hujiValidateCredentials (u : String) : ValidationResult :=
  { success := false, result := "not_implemented",
    messageHe := "אימות האוניברסיטה העברית עדיין לא מוטמע",
    messageEn := "HUJI validation not yet implemented",
    university := "huji", username := u }

/-! ## BGUAuthenticator (`bgu_config_updated.py`) -/

/-- `BGUConfig.URLS`, in priority order. -/
def bguUrls : List String :=
  ["https://moodle.bgu.ac.il/moodle/local/mydashboard/",
   "https://moodle.bgu.ac.il/moodle/login/index.php",
   "https://moodle.bgu.ac.il/login/index.php",
   "https://moodle.bgu.ac.il/moodle/",
   "https://moodle.bgu.ac.il/"]

/-- `BGUConfig.LOGIN_SELECTORS['username_field']`. -/
def bguUsernameSelectors : List String :=
  ["#login_username", "input[name=\"username\"]", "#username",
   "input[placeholder*=\"שם משתמש\"]"]

/-- `BGUConfig.LOGIN_SELECTORS['password_field']`. -/
def bguPasswordSelectors : List String :=
  ["#login_password", "input[name=\"password\"]", "#password",
   "input[type=\"password\"]"]

/-- `BGUConfig.LOGIN_SELECTORS['login_button']`. -/
def bguLoginButtonSelectors : List String :=
  ["input[type=\"submit\"]", "button[type=\"submit\"]", "form button",
   ".btn-primary", "#loginbtn"]

/-- `BGUConfig.SUCCESS_INDICATORS` (URL substrings). -/
def bguSuccessIndicators : List String :=
  ["/my/", "/local/mydashboard/", "/dashboard/", "/course/view.php",
   "/user/profile.php", "moodle.bgu.ac.il/my", "moodle.bgu.ac.il/local"]

/-- `BGUConfig.ERROR_SELECTORS`. -/
def bguErrorSelectors : List String :=
  [".alert-danger", ".error", "#loginerrormessage", ".alert-error",
   ".login-error", "[role=\"alert\"]", ".errormessage", ".loginerrors",
   ".alert.alert-danger"]

/-- `BGUConfig.ERROR_TEXT_PATTERNS` (bilingual credential-error markers). -/
def bguErrorTextPatterns : List String :=
  ["invalid", "incorrect", "שגוי", "שגויים", "לא נכון", "אינו נכון",
   "כישלון", "נכשל"]

/-- Specification predicate for the selector resolver: the candidate matches
an element that is both visible and enabled. -/
def qualifies (p : Page) (s : String) : Bool :=
  match p.query s with
  | .found e => e.visible && e.enabled
  | _ => false

/-- `BGUAuthenticator._fill_field`, instrumented to return the index of the
selector actually filled (the source returns plain True/False; `isSome` of
this value is that Bool).  After `element.fill(value)` the source re-reads
`input_value()` for non-password fields; in the state-based DOM model the
element holds the value just stored, so the comparison is `value == value`. -/
def bguFillFieldIdx (p : Page) (value fieldName : String) :
    List String → Nat → Option Nat
  | [], _ => none
  | s :: rest, i =>
    match p.query s with
    | .found e =>
      if e.visible && e.enabled then
        if fieldName != "password" then
          if value == value then some i
          else bguFillFieldIdx p value fieldName rest (i + 1)
        else some i
      else bguFillFieldIdx p value fieldName rest (i + 1)
    | _ => bguFillFieldIdx p value fieldName rest (i + 1)

/-- `BGUAuthenticator._fill_field` proper (Boolean, as in the source). -/
def bguFillField (p : Page) (selectors : List String)
    (value fieldName : String) : Bool :=
  (bguFillFieldIdx p value fieldName selectors 0).isSome

/-- The Enter fallback of `_click_login_button`: the whole loop sits in one
try-block, so a raising query aborts it (returns False); the first password
selector that yields any element gets `press(Enter)` and reports True. -/
def bguEnterFallback (p : Page) : List String → Bool
  | [] => false
  | s :: rest =>
    match p.query s with
    | .raises => false
    | .found _ => true
    | .notFound => bguEnterFallback p rest

/-- `BGUAuthenticator._click_login_button`: first visible+enabled button
candidate is clicked; otherwise fall back to pressing Enter on a password
field. -/
def bguClickLoginButton (p : Page) : Bool :=
  if (bguLoginButtonSelectors.findIdx? (fun s => qualifies p s)).isSome then
    true
  else bguEnterFallback p bguPasswordSelectors

/-- `BGUAuthenticator._check_login_form_exists`: any password-field selector
resolving to a visible element. -/
def bguCheckLoginFormExists (p : Page) : Bool :=
  bguPasswordSelectors.any (fun s =>
    match p.query s with
    | .found e => e.visible
    | _ => false)

/-- `BGUAuthenticator._check_for_errors`: scan the error selectors; a
visible, non-empty text that matches one of the bilingual
`ERROR_TEXT_PATTERNS` is returned stripped (verbatim); otherwise the scan
continues and finally yields None. -/
def bguCheckForErrors (p : Page) : Option String :=
  go bguErrorSelectors
where
  go : List String → Option String
    | [] => none
    | s :: rest =>
      match p.query s with
      | .found e =>
        if e.visible then
          match e.text with
          | some t =>
            if (strTrim t) ≠ "" then
              if containsAny (strLower t) bguErrorTextPatterns then some (strTrim t)
              else go rest
            else go rest
          | none => go rest
        else go rest
      | _ => go rest

/-- Result dictionary of the BGU authenticator.  The final all-URLs-failed
dictionary carries `error` = NETWORK_ERROR but no `error_type` key, hence the
`Option`. -/
structure BguOutcome where
  success : Bool
  error : String := ""
  errorType : Option String := none
  messageHe : String
  messageEn : String
  currentUrl : String := ""
  successfulUrl : Option String := none
deriving Repr, DecidableEq

/-- FORM_ERROR outcome of `_attempt_login`. -/
def bguFormError (he en : String) : BguOutcome :=
  { success := false, error := "FORM_ERROR", errorType := some "FORM_ERROR",
    messageHe := he, messageEn := en }

/-- Success outcome of `_check_authentication_result`. -/
def bguSuccessOutcome (url : String) : BguOutcome :=
  { success := true,
    messageHe := "התחברות למערכת בן גוריון הצליחה",
    messageEn := "BGU system authentication successful",
    currentUrl := url }

/-- INVALID_CREDENTIALS outcome of `_check_authentication_result`. -/
def bguInvalidCreds (he url : String) : BguOutcome :=
  { success := false, error := "INVALID_CREDENTIALS",
    errorType := some "INVALID_CREDENTIALS",
    messageHe := he, messageEn := "Invalid username or password",
    currentUrl := url }

/-- `BGUAuthenticator._check_authentication_result`: errors first, then
URL success indicators, then the left-the-login-page heuristic, else
INVALID_CREDENTIALS. -/
def bguCheckAuthenticationResult (p : Page) : BguOutcome :=
  match bguCheckForErrors p with
  | some msg => bguInvalidCreds msg p.url
  | none =>
    if bguSuccessIndicators.any (fun ind => strContains p.url ind) then
      bguSuccessOutcome p.url
    else if !(strContains (strLower p.url) "login") then
      bguSuccessOutcome p.url
    else
      bguInvalidCreds "שם משתמש או סיסמה שגויים" p.url

/-- Outcome of `page.goto(url)` inside `try_multiple_urls`: a raised
navigation exception, a falsy response, or a response with an HTTP status. -/
inductive Nav where
  | raises
  | noResp
  | status (n : Nat)
deriving Repr, DecidableEq

/-- What one candidate URL of `try_multiple_urls` encounters: the navigation
outcome, the page it lands on (used for the form check and the fills), whether
the post-submit `wait_for_load_state` raises (with its message), and the page
state once `_check_authentication_result` runs. -/
structure BguUrlStep where
  nav : Nav
  page : Page
  submitWait : Option String
  postPage : Page

/-- `BGUAuthenticator._attempt_login`: fill username, fill password, click,
await the server, classify.  Each failed sub-step returns its dictionary; the
only raising step is the `wait_for_load_state`, converted by the method's own
try/except into AUTHENTICATION_ERROR. -/
def bguAttemptLogin (step : BguUrlStep) (username password : String) :
    BguOutcome :=
  if !(bguFillField step.page bguUsernameSelectors username "username") then
    bguFormError "לא הצלחתי למלא שדה שם משתמש" "Failed to fill username field"
  else if !(bguFillField step.page bguPasswordSelectors password "password") then
    bguFormError "לא הצלחתי למלא שדה סיסמה" "Failed to fill password field"
  else if !(bguClickLoginButton step.page) then
    bguFormError "לא הצלחתי ללחוץ על כפתור התחברות" "Failed to click login button"
  else
    match step.submitWait with
    | some e =>
      { success := false, error := "AUTHENTICATION_ERROR",
        errorType := some "AUTHENTICATION_ERROR",
        messageHe := "שגיאה בתהליך ההתחברות: " ++ e,
        messageEn := "Authentication process error: " ++ e }
    | none => bguCheckAuthenticationResult step.postPage

/-- The all-URLs-failed dictionary of `try_multiple_urls`. -/
def bguAllUrlsFailed : BguOutcome :=
  { success := false, error := "NETWORK_ERROR",
    messageHe := "לא הצלחתי להתחבר לאף אחד מה-URLs של בן גוריון",
    messageEn := "Failed to connect to any BGU URLs" }

/-- `BGUAuthenticator.try_multiple_urls`, instrumented to also return the list
of URLs navigated to, in order.  A navigation exception, a falsy or ≥ 400
response, or a missing login form moves on to the next URL; a successful or
INVALID_CREDENTIALS attempt ends the loop with that outcome. -/
def bguTryUrlsGo (env : String → BguUrlStep) (username password : String) :
    List String → BguOutcome × List String
  | [] => (bguAllUrlsFailed, [])
  | u :: rest =>
    let step := env u
    match step.nav with
    | .raises =>
      let r := bguTryUrlsGo env username password rest
      (r.1, u :: r.2)
    | .noResp =>
      let r := bguTryUrlsGo env username password rest
      (r.1, u :: r.2)
    | .status n =>
      if n ≥ 400 then
        let r := bguTryUrlsGo env username password rest
        (r.1, u :: r.2)
      else if !(bguCheckLoginFormExists step.page) then
        let r := bguTryUrlsGo env username password rest
        (r.1, u :: r.2)
      else
        let lr := bguAttemptLogin step username password
        if lr.success then ({ lr with successfulUrl := some u }, [u])
        else if lr.errorType == some "INVALID_CREDENTIALS" then (lr, [u])
        else
          let r := bguTryUrlsGo env username password rest
          (r.1, u :: r.2)

/-- `BGUAuthenticator.try_multiple_urls` over the configured URL list. -/
def bguTryMultipleUrls (env : String → BguUrlStep) (username password : String) :
    BguOutcome × List String :=
  bguTryUrlsGo env username password bguUrls

/-- A page "classified MAINTENANCE" in the sense of the spec and of
`SmartMoodleValidator._perform_real_login`: its content contains one of the
maintenance keywords. -/
def isMaintenancePage (p : Page) : Bool :=
  containsAny (strLower p.content) smartMaintenanceKeywords

/-! ## HUJIAuthenticator (`huji_config.py`)

The HUJI authenticator duplicates the BGU control flow with extra CAS/SSO
branches; the embedding duplicates it the same way the source does. -/

/-- `HUJIConfig.URLS`, in priority order. -/
def hujiUrls : List String :=
  ["https://moodle.huji.ac.il/local/mydashboard/",
   "https://moodle.huji.ac.il/moodle25/login/index.php",
   "https://moodle.huji.ac.il/login/index.php",
   "https://moodle.huji.ac.il/auth/shibboleth/",
   "https://moodle.huji.ac.il/portal/",
   "https://moodle.huji.ac.il/"]

/-- `HUJIConfig.LOGIN_SELECTORS['username_field']`. -/
def hujiUsernameSelectors : List String :=
  ["#username", "input[name=\"username\"]", "#login_username", "#user",
   "input[placeholder*=\"שם משתמש\"]", "input[placeholder*=\"מזהה\"]",
   "input[placeholder*=\"ת.ז.\"]"]

/-- `HUJIConfig.LOGIN_SELECTORS['password_field']`. -/
def hujiPasswordSelectors : List String :=
  ["#password", "input[name=\"password\"]", "#login_password", "#pass",
   "input[type=\"password\"]", "input[placeholder*=\"סיסמ\"]"]

/-- `HUJIConfig.LOGIN_SELECTORS['login_button']`. -/
def hujiLoginButtonSelectors : List String :=
  ["#loginbtn", "input[type=\"submit\"]", "button[type=\"submit\"]",
   ".btn-primary", ".login-button", "form button",
   "input[value*=\"התחבר\"]", "input[value*=\"כניסה\"]"]

/-- `HUJIConfig.LOGIN_SELECTORS['sso_button']`. -/
def hujiSsoButtonSelectors : List String :=
  ["a[href*=\"shibboleth\"]", "a[href*=\"saml\"]", ".sso-button",
   ".huji-sso", "button[data-action=\"sso\"]", "a[href*=\"portal\"]"]

/-- `HUJIConfig.LOGIN_SELECTORS['cas_fields']`. -/
def hujiCasFieldSelectors : List String :=
  ["input[name=\"execution\"]", "input[name=\"_eventId\"]",
   "input[name=\"service\"]"]

/-- `HUJIConfig.SUCCESS_INDICATORS` (URL substrings and CSS selectors). -/
def hujiSuccessIndicators : List String :=
  ["/my/", "/dashboard/", "/local/mydashboard/", "/course/view.php",
   "/user/profile.php", "/portal/student/", "moodle.huji.ac.il/my",
   "moodle.huji.ac.il/local", "moodle.huji.ac.il/portal", ".dashboard-card",
   "#page-my-index", ".huji-dashboard", ".student-portal"]

/-- `HUJIConfig.ERROR_SELECTORS`. -/
def hujiErrorSelectors : List String :=
  [".alert-danger", ".error", "#loginerrormessage", ".login-error",
   ".errormessage", "[role=\"alert\"]", ".alert-error",
   ".notification-error", ".cas-error", ".sso-error", ".huji-error",
   "#fm1 .errors"]

/-- `HUJIConfig.ERROR_TEXT_PATTERNS` (bilingual credential-error markers). -/
def hujiErrorTextPatterns : List String :=
  ["invalid", "incorrect", "wrong", "failed", "error", "denied",
   "unauthorized", "שגוי", "שגויים", "לא נכון", "אינו נכון", "כישלון",
   "נכשל", "שגיאה", "לא תקין", "לא מורשה", "נדחה", "אין הרשאה"]

/-- A selector scan whose enclosing try-block swallows nothing per selector:
`some true` = an element was found, `some false` = the list is exhausted,
`none` = a query raised (aborting the whole enclosing method to its except
clause).  Used by `_check_cas_page` (cas_fields) and `_check_sso_page`
(sso_button existence scan). -/
def hujiScanFields (p : Page) : List String → Option Bool
  | [] => some false
  | s :: rest =>
    match p.query s with
    | .raises => none
    | .found _ => some true
    | .notFound => hujiScanFields p rest

/-- `HUJIAuthenticator._check_cas_page`: CAS URL markers, then the CAS hidden
form fields, then CAS content markers; any exception makes the whole check
return False. -/
def hujiCheckCasPage (p : Page) : Bool :=
  if containsAny (strLower p.url) ["cas/login", "cas.huji", "sso.huji"] then
    true
  else
    match hujiScanFields p hujiCasFieldSelectors with
    | some true => true
    | none => false
    | some false =>
      containsAny (strLower p.content)
        ["cas", "central authentication", "אימות מרכזי"]

/-- `HUJIAuthenticator._check_sso_page`: the first three SSO markers against
the URL, all five against the content, then the SSO button selectors; any
exception makes the whole check return False. -/
def hujiCheckSsoPage (p : Page) : Bool :=
  if containsAny (strLower p.url) ["shibboleth", "saml", "sso"] then true
  else if containsAny (strLower p.content)
      ["shibboleth", "saml", "sso", "single sign", "אימות מאוחד"] then true
  else
    match hujiScanFields p hujiSsoButtonSelectors with
    | some true => true
    | none => false
    | some false => false

/-- `HUJIAuthenticator._check_login_form_exists`: any password-field selector
resolving to a visible element (per-selector exceptions are swallowed). -/
def hujiCheckLoginFormExists (p : Page) : Bool :=
  hujiPasswordSelectors.any (fun s =>
    match p.query s with
    | .found e => e.visible
    | _ => false)

/-- `HUJIAuthenticator._fill_field`, instrumented like the BGU one: the extra
triple-click/clear/wait choreography before `fill` does not change which
candidate is filled; the post-fill `input_value` verification reads back the
value just stored. -/
def hujiFillFieldIdx (p : Page) (value fieldName : String) :
    List String → Nat → Option Nat
  | [], _ => none
  | s :: rest, i =>
    match p.query s with
    | .found e =>
      if e.visible && e.enabled then
        if fieldName != "password" then
          if value == value then some i
          else hujiFillFieldIdx p value fieldName rest (i + 1)
        else some i
      else hujiFillFieldIdx p value fieldName rest (i + 1)
    | _ => hujiFillFieldIdx p value fieldName rest (i + 1)

/-- `HUJIAuthenticator._fill_field` proper (Boolean). -/
def hujiFillField (p : Page) (selectors : List String)
    (value fieldName : String) : Bool :=
  (hujiFillFieldIdx p value fieldName selectors 0).isSome

/-- The Enter fallback of the HUJI `_click_login_button` (one try-block: a
raising query aborts it). -/
def hujiEnterFallback (p : Page) : List String → Bool
  | [] => false
  | s :: rest =>
    match p.query s with
    | .raises => false
    | .found _ => true
    | .notFound => hujiEnterFallback p rest

/-- `HUJIAuthenticator._click_login_button`: first visible+enabled button
candidate (scroll + click), else press Enter on a password field. -/
def hujiClickLoginButton (p : Page) : Bool :=
  if (hujiLoginButtonSelectors.findIdx? (fun s => qualifies p s)).isSome then
    true
  else hujiEnterFallback p hujiPasswordSelectors

/-- The result dictionary of the HUJI authenticator.  On success the loop
additionally records `auth_method`. -/
structure HujiOutcome where
  success : Bool
  error : String := ""
  errorType : Option String := none
  messageHe : String
  messageEn : String
  currentUrl : String := ""
  successfulUrl : Option String := none
  authMethod : Option String := none
deriving Repr, DecidableEq

/-- FORM_ERROR outcome of the HUJI `_attempt_regular_login`. -/
def hujiFormError (he en : String) : HujiOutcome :=
  { success := false, error := "FORM_ERROR", errorType := some "FORM_ERROR",
    messageHe := he, messageEn := en }

/-- Success outcome of the HUJI `_check_authentication_result`. -/
def hujiSuccessOutcome (url : String) : HujiOutcome :=
  { success := true,
    messageHe := "התחברות למערכת האוניברסיטה העברית הצליחה",
    messageEn := "HUJI system authentication successful",
    currentUrl := url }

/-- INVALID_CREDENTIALS outcome of the HUJI `_check_authentication_result`. -/
def hujiInvalidCreds (he url : String) : HujiOutcome :=
  { success := false, error := "INVALID_CREDENTIALS",
    errorType := some "INVALID_CREDENTIALS",
    messageHe := he, messageEn := "Invalid username or password",
    currentUrl := url }

/-- `HUJIAuthenticator._check_for_errors`: like BGU's, gated on the HUJI
bilingual pattern list; the matching text is returned stripped (verbatim). -/
def hujiCheckForErrors (p : Page) : Option String :=
  go hujiErrorSelectors
where
  go : List String → Option String
    | [] => none
    | s :: rest =>
      match p.query s with
      | .found e =>
        if e.visible then
          match e.text with
          | some t =>
            if strTrim t ≠ "" then
              if containsAny (strLower t) hujiErrorTextPatterns then
                some (strTrim t)
              else go rest
            else go rest
          | none => go rest
        else go rest
      | _ => go rest

/-- The element-based success scan of the HUJI
`_check_authentication_result`: only indicators that start with `.` or `#`
are treated as CSS selectors; a found element means success; per-selector
exceptions are swallowed. -/
def hujiSuccessElementFound (p : Page) : Bool :=
  hujiSuccessIndicators.any (fun ind =>
    (strStartsWith ind "." || strStartsWith ind "#") &&
      match p.query ind with
      | .found _ => true
      | _ => false)

/-- `HUJIAuthenticator._check_authentication_result`: errors first, then URL
success indicators, then the left-the-login/cas/auth-surface heuristic, then
the CSS success elements, else INVALID_CREDENTIALS. -/
def hujiCheckAuthenticationResult (p : Page) : HujiOutcome :=
  match hujiCheckForErrors p with
  | some msg => hujiInvalidCreds msg p.url
  | none =>
    if hujiSuccessIndicators.any (fun ind => strContains p.url ind) then
      hujiSuccessOutcome p.url
    else if !(containsAny (strLower p.url) ["login", "cas", "auth"]) then
      hujiSuccessOutcome p.url
    else if hujiSuccessElementFound p then
      hujiSuccessOutcome p.url
    else
      hujiInvalidCreds "שם משתמש או סיסמה שגויים" p.url

/-- What one candidate URL of the HUJI `try_multiple_urls` encounters: the
navigation outcome (the follow-up network-idle wait is swallowed by its own
try/except and has no effect), the page it lands on, whether the
post-SSO-click wait raises (caught by `_handle_sso_login` → SSO_ERROR),
whether the post-submit wait raises (caught by `_attempt_regular_login` →
AUTHENTICATION_ERROR), and the page when `_check_authentication_result`
runs. -/
structure HujiUrlStep where
  nav : Nav
  page : Page
  ssoWait : Option String
  submitWait : Option String
  postPage : Page

/-- `HUJIAuthenticator._attempt_regular_login`.  `isCas` only selects which
timeout constant the post-submit wait uses; it does not change the control
flow. -/
def hujiAttemptRegularLogin (step : HujiUrlStep) (username password : String)
    (_isCas : Bool) : HujiOutcome :=
  if !(hujiFillField step.page hujiUsernameSelectors username "username") then
    hujiFormError "לא הצלחתי למלא שדה שם משתמש" "Failed to fill username field"
  else if !(hujiFillField step.page hujiPasswordSelectors password
      "password") then
    hujiFormError "לא הצלחתי למלא שדה סיסמה" "Failed to fill password field"
  else if !(hujiClickLoginButton step.page) then
    hujiFormError "לא הצלחתי ללחוץ על כפתור התחברות"
      "Failed to click login button"
  else
    match step.submitWait with
    | some e =>
      { success := false, error := "AUTHENTICATION_ERROR",
        errorType := some "AUTHENTICATION_ERROR",
        messageHe := "שגיאה בתהליך ההתחברות: " ++ e,
        messageEn := "Authentication process error: " ++ e }
    | none => hujiCheckAuthenticationResult step.postPage

/-- `HUJIAuthenticator._handle_cas_login`: the CAS form is handled as a
regular login with `is_cas=True`; in the model `_attempt_regular_login`
never raises, so the handler's CAS_ERROR except clause is unreachable. -/
def hujiHandleCasLogin (step : HujiUrlStep) (username password : String) :
    HujiOutcome :=
  hujiAttemptRegularLogin step username password true

/-- The SSO-button click loop of `_handle_sso_login`: first found visible
button is clicked (per-selector exceptions are swallowed). -/
def hujiSsoClicked (p : Page) : Bool :=
  hujiSsoButtonSelectors.any (fun s =>
    match p.query s with
    | .found e => e.visible
    | _ => false)

/-- `HUJIAuthenticator._handle_sso_login`: click an SSO button if one is
found, await the redirect (a raised wait becomes SSO_ERROR via the handler's
except clause), then run the regular login on the resulting page. -/
def hujiHandleSsoLogin (step : HujiUrlStep) (username password : String) :
    HujiOutcome :=
  if hujiSsoClicked step.page then
    match step.ssoWait with
    | some e =>
      { success := false, error := "SSO_ERROR",
        errorType := some "SSO_ERROR",
        messageHe := "שגיאה בהתחברות SSO: " ++ e,
        messageEn := "SSO login error: " ++ e }
    | none => hujiAttemptRegularLogin step username password false
  else hujiAttemptRegularLogin step username password false

/-- The branch selection of the HUJI loop body: CAS pages go to the CAS
handler, SSO pages (checked only when not CAS, as in
`is_sso = ... if not is_cas else False`) to the SSO handler, and otherwise a
regular login is attempted when a login form exists; `none` means no form was
found and the loop continues to the next URL. -/
def hujiBranchResult (step : HujiUrlStep) (username password : String) :
    Option HujiOutcome :=
  if hujiCheckCasPage step.page then
    some (hujiHandleCasLogin step username password)
  else if hujiCheckSsoPage step.page then
    some (hujiHandleSsoLogin step username password)
  else if hujiCheckLoginFormExists step.page then
    some (hujiAttemptRegularLogin step username password false)
  else none

/-- The `auth_method` tag the loop attaches to a successful result. -/
def hujiAuthMethod (step : HujiUrlStep) : String :=
  if hujiCheckCasPage step.page then "cas"
  else if hujiCheckSsoPage step.page then "sso"
  else "regular"

/-- The all-URLs-failed dictionary of the HUJI `try_multiple_urls`. -/
def hujiAllUrlsFailed : HujiOutcome :=
  { success := false, error := "NETWORK_ERROR",
    messageHe := "לא הצלחתי להתחבר לאף אחד מה-URLs של האוניברסיטה העברית",
    messageEn := "Failed to connect to any HUJI URLs" }

/-- `HUJIAuthenticator.try_multiple_urls`, instrumented with the list of URLs
navigated to, in order.  A navigation exception, a falsy or ≥ 400 response,
or a regular page without a login form moves on to the next URL; a
successful attempt (tagged with its auth method) or an INVALID_CREDENTIALS
attempt ends the loop with that outcome. -/
def hujiTryUrlsGo (env : String → HujiUrlStep) (username password : String) :
    List String → HujiOutcome × List String
  | [] => (hujiAllUrlsFailed, [])
  | u :: rest =>
    let step := env u
    match step.nav with
    | .raises =>
      let r := hujiTryUrlsGo env username password rest
      (r.1, u :: r.2)
    | .noResp =>
      let r := hujiTryUrlsGo env username password rest
      (r.1, u :: r.2)
    | .status n =>
      if n ≥ 400 then
        let r := hujiTryUrlsGo env username password rest
        (r.1, u :: r.2)
      else
        match hujiBranchResult step username password with
        | none =>
          let r := hujiTryUrlsGo env username password rest
          (r.1, u :: r.2)
        | some lr =>
          if lr.success then
            ({ lr with
                successfulUrl := some u
                authMethod := some (hujiAuthMethod step) }, [u])
          else if lr.errorType == some "INVALID_CREDENTIALS" then (lr, [u])
          else
            let r := hujiTryUrlsGo env username password rest
            (r.1, u :: r.2)

/-- `HUJIAuthenticator.try_multiple_urls` over the configured URL list. -/
def hujiTryMultipleUrls (env : String → HujiUrlStep)
    (username password : String) : HujiOutcome × List String :=
  hujiTryUrlsGo env username password hujiUrls

/-! ## DevMoodleValidator (`dev_real_validator.py`) -/

/-- Primary + alternative username selectors, as `_try_fill_field` assembles
them (`[config[field_key]] + alternative_selectors[field_key]`). -/
def devUsernameSelectors : List String :=
  "#login_username" ::
  ["#login_username", "input[name=\"username\"]", "#username",
   "input[placeholder*=\"שם משתמש\"]"]

/-- Primary + alternative password selectors. -/
def devPasswordSelectors : List String :=
  "#login_password" ::
  ["#login_password", "input[name=\"password\"]", "#password",
   "input[placeholder*=\"סיסמה\"]"]

/-- Primary + alternative login-button selectors. -/
def devLoginButtonSelectors : List String :=
  "input[type=\"submit\"]" ::
  ["input[type=\"submit\"]", "button[type=\"submit\"]", ".btn-primary",
   "#loginbtn"]

/-- `configs['bgu']['success_indicators']` of the dev validator. -/
def devSuccessIndicators : List String :=
  ["/my/", "/local/mydashboard/", "/dashboard/", "moodle.bgu.ac.il/my",
   "moodle.bgu.ac.il/local", "/course/view.php", "/user/profile.php"]

/-- `configs['bgu']['error_indicators']` of the dev validator. -/
def devErrorIndicators : List String :=
  [".alert-danger", ".error", "#loginerrormessage", ".alert-error",
   ".login-error", "[role=\"alert\"]", ".errormessage", ".loginerrors",
   ".alert.alert-danger"]

/-- The hard-coded `success_elements` list of `validate`. -/
def devSuccessElements : List String :=
  [".dashboard", ".profile", ".user-info", "[class*=\"dashboard\"]",
   "[class*=\"profile\"]", "h1:has-text(\"לוח בקרה\")",
   "h1:has-text(\"Dashboard\")"]

/-- The extended error-selector list of `validate`:
`config['error_indicators'] + [...hard-coded extras...]`. -/
def devExtendedErrorSelectors : List String :=
  devErrorIndicators ++
  ["[class*=\"error\"]", "[class*=\"alert\"]", ".login-error",
   "text=\"Invalid\"", "text=\"שגוי\"", "text=\"כישלון\""]

/-- `DevMoodleValidator._try_fill_field`, instrumented with the index of the
selector filled.  Candidates are tried in order; an element that exists but is
hidden or disabled is skipped; a raising query is swallowed; the post-fill
`input_value` verification reads back the value just stored. -/
def devTryFillFieldIdx (p : Page) (value : String) :
    List String → Nat → Option Nat
  | [], _ => none
  | s :: rest, i =>
    match p.query s with
    | .found e =>
      if e.visible && e.enabled then
        if value == value then some i
        else devTryFillFieldIdx p value rest (i + 1)
      else devTryFillFieldIdx p value rest (i + 1)
    | _ => devTryFillFieldIdx p value rest (i + 1)

/-- `DevMoodleValidator._try_fill_field` proper (Boolean). -/
def devTryFillField (p : Page) (selectors : List String) (value : String) :
    Bool :=
  (devTryFillFieldIdx p value selectors 0).isSome

/-- `DevMoodleValidator._try_click_button`: first visible+enabled candidate is
clicked; the Enter fallback queries only the primary password selector. -/
def devTryClickButton (p : Page) : Bool :=
  if (devLoginButtonSelectors.findIdx? (fun s => qualifies p s)).isSome then
    true
  else
    match p.query "#login_password" with
    | .found _ => true
    | _ => false

/-- URL-based success evidence of `validate`. -/
def devUrlSuccess (p : Page) : Bool :=
  devSuccessIndicators.any (fun ind => strContains p.url ind)

/-- Element-based success evidence of `validate`: any success element found
(per-selector exceptions are swallowed). -/
def devElementSuccess (p : Page) : Bool :=
  devSuccessElements.any (fun s =>
    match p.query s with
    | .found _ => true
    | _ => false)

/-- The explicit-error scan of `validate`: the first found element with
non-empty text among the extended error selectors sets `has_login_error`. -/
def devHasLoginError (p : Page) : Bool :=
  devExtendedErrorSelectors.any (fun s =>
    match p.query s with
    | .found e =>
      match e.text with
      | some t => (strTrim t) ≠ ""
      | none => false
    | _ => false)

/-- `DevMoodleValidator._get_error_message`: one try-block around the whole
loop, so a raising query aborts to the default message. -/
def devGetErrorMessage (p : Page) : String :=
  go devErrorIndicators
where
  go : List String → String
    | [] => "שגיאה לא ידועה בהתחברות"
    | s :: rest =>
      match p.query s with
      | .raises => "שגיאה לא ידועה בהתחברות"
      | .found e =>
        match e.text with
        | some t => if (strTrim t) ≠ "" then (strTrim t) else go rest
        | none => go rest
      | .notFound => go rest

/-- Environment of one `DevMoodleValidator.validate` run: possible raised
navigation/settle exceptions (with message), the login page (for fills and
click) and the post-submit page (for the success/error analysis). -/
structure DevEnv where
  navRaises : Option String
  prePage : Page
  submitRaises : Option String
  postPage : Page

/-- Result dictionary of `DevMoodleValidator.validate` (the keys the claims
concern). -/
structure DevResult where
  success : Bool
  result : String
  error : String := ""
  messageHe : String
  messageEn : String
deriving Repr, DecidableEq

/-- The `except Exception` branch of `validate`. -/
def devValidationError (e : String) : DevResult :=
  { success := false, result := "validation_error",
    error := "VALIDATION_ERROR",
    messageHe := "שגיאה באימות: " ++ e,
    messageEn := "Validation error: " ++ e }

/-- `DevMoodleValidator.validate` (university = bgu): navigate, fill, click,
settle, then decide `is_success = (url_success or element_success) and not
has_login_error`. -/
def devValidate (env : DevEnv) (username password : String) : DevResult :=
  match env.navRaises with
  | some e => devValidationError e
  | none =>
    let usernameFilled :=
      devTryFillField env.prePage devUsernameSelectors username
    let passwordFilled :=
      devTryFillField env.prePage devPasswordSelectors password
    if !usernameFilled || !passwordFilled then
      devValidationError "לא הצלחתי למלא את פרטי ההתחברות - אולי הדף השתנה"
    else if !(devTryClickButton env.prePage) then
      devValidationError "לא הצלחתי למצוא את כפתור ההתחברות"
    else
      match env.submitRaises with
      | some e => devValidationError e
      | none =>
        let urlSuccess := devUrlSuccess env.postPage
        let elementSuccess := devElementSuccess env.postPage
        let hasLoginError := devHasLoginError env.postPage
        let isSuccess := (urlSuccess || elementSuccess) && !hasLoginError
        if isSuccess then
          { success := true, result := "success",
            messageHe := "התחברות למודל בוצעה בהצלחה",
            messageEn := "Moodle authentication successful" }
        else
          { success := false, result := "invalid_credentials",
            error := "INVALID_CREDENTIALS",
            messageHe := devGetErrorMessage env.postPage,
            messageEn := "Invalid username or password" }

/-! ## Rate limiting (`main.py`, `check_rate_limits`) -/

/-- The Redis counter for one (tenant, institution) key: window start time
(seconds) and request count.  `none` models an absent/expired key. -/
structure RateWindow where
  start : Nat
  count : Nat
deriving Repr, DecidableEq

/-- `UniversityIntegrationService.check_rate_limits` for one fixed
(tenant_id, university_id) pair.  `GET` of an absent or expired key yields
None, upon which `SETEX key 60 1` admits; otherwise the count is compared
with the institution's requests-per-minute ceiling and incremented only when
admitted.  The `SETEX` TTL fixes the expiry at `start + 60` (an `INCR` does
not refresh it). -/
def checkRateLimits (maxReq : Nat) (now : Nat) (s : Option RateWindow) :
    Bool × Option RateWindow :=
  match s with
  | none => (true, some ⟨now, 1⟩)
  | some w =>
    if now ≥ w.start + 60 then (true, some ⟨now, 1⟩)
    else if w.count ≥ maxReq then (false, some w)
    else (true, some ⟨w.start, w.count + 1⟩)

/-- Run a sequence of admission checks at the given times, returning the
admission answers in order and the final stored state. -/
def rateTrace (maxReq : Nat) : List Nat → Option RateWindow →
    List Bool × Option RateWindow
  | [], s => ([], s)
  | t :: ts, s =>
    let r := checkRateLimits maxReq t s
    let rest := rateTrace maxReq ts r.2
    (r.1 :: rest.1, rest.2)

/-- `requests_per_minute` for HUJI in `_load_university_configs`. -/
def hujiRequestsPerMinute : Nat := 20

/-! ## sync_user_data retry policy (`scraping_tasks.py`) -/

/-- `max_retries=3` on the `sync_user_data` Celery task. -/
def syncMaxRetries : Nat := 3

/-- The keys of the task's result dictionary that the retry policy reads. -/
structure SyncResult where
  success : Bool
  error : String := ""
  messageHe : String
  messageEn : String
deriving Repr, DecidableEq

/-- One delivery of the task body either returns a result dictionary or
raises. -/
inductive SyncRun where
  | ok (r : SyncResult)
  | exn (msg : String)
deriving Repr, DecidableEq

/-- Environment of one delivery of `sync_async`: whether some awaited step
raises (re-raised by the body's except clause), whether the Auth-service
lookup finds credentials, the credential-validation outcome, and the
extraction outcome (`.error r` = the failure dictionary returned as-is,
`.ok (c, g, a)` = extracted courses/grades/assignments counts). -/
structure SyncEnv where
  exn : Option String
  credsFound : Bool
  validation : ValidationResult
  extraction : Except SyncResult (Nat × Nat × Nat)

/-- The body of `sync_user_data` (`sync_async`): an authentication outcome
with `success=False` returns the `authentication_failed` dictionary — it does
not raise, so it can never reach the retry logic. -/
def syncBody (env : SyncEnv) : SyncRun :=
  match env.exn with
  | some m => .exn m
  | none =>
    if !env.credsFound then
      .ok { success := false, error := "credentials_not_found",
            messageHe := "לא נמצאו פרטי התחברות",
            messageEn := "Credentials not found" }
    else if !env.validation.success then
      .ok { success := false, error := "authentication_failed",
            messageHe := env.validation.messageHe,
            messageEn := env.validation.messageEn }
    else
      match env.extraction with
      | .error r => .ok r
      | .ok _ =>
        .ok { success := true,
              messageHe := "סנכרון נתונים הושלם בהצלחה",
              messageEn := "Data synchronization completed successfully" }

/-- `any(error_type in str(e).lower() for error_type in
['timeout', 'network', 'connection'])`. -/
def retryableMsg (m : String) : Bool :=
  ["timeout", "network", "connection"].any (fun k => strContains (strLower m) k)

/-- The task_error dictionary returned when an exception is not retried. -/
def taskErrorResult (m : String) : SyncResult :=
  { success := false, error := "task_error",
    messageHe := "שגיאה במשימת הסנכרון: " ++ m,
    messageEn := "Sync task error: " ++ m }

/-- One Celery delivery of `sync_user_data` at retry counter `attempt`:
either a final result or a retry scheduled after `120 * (attempt + 1)`
seconds. -/
inductive TaskStep where
  | done (r : SyncResult)
  | retryIn (delay : Nat)
deriving Repr, DecidableEq

/-- The task's own exception handler: retry only while
`self.request.retries < self.max_retries` and the message mentions
timeout/network/connection; the backoff is `120 * (retries + 1)`. -/
def syncAttempt (env : Nat → SyncEnv) (attempt : Nat) : TaskStep :=
  match syncBody (env attempt) with
  | .ok r => .done r
  | .exn m =>
    if attempt < syncMaxRetries && retryableMsg m then
      .retryIn (120 * (attempt + 1))
    else .done (taskErrorResult m)

/-- The queue redelivering the task until it stops retrying, collecting the
(attempt, delay) pairs of the scheduled retries.  Terminates because a retry
is only scheduled while `attempt < syncMaxRetries`. -/
def runSync (env : Nat → SyncEnv) (attempt : Nat) :
    SyncResult × List (Nat × Nat) :=
  match h : syncAttempt env attempt with
  | .done r => (r, [])
  | .retryIn d =>
    let r := runSync env (attempt + 1)
    (r.1, (attempt, d) :: r.2)
termination_by syncMaxRetries + 1 - attempt
decreasing_by
  simp only [syncAttempt] at h
  split at h
  · exact absurd h (by simp)
  · split at h
    · rename_i hc
      have hlt : attempt < syncMaxRetries := by
        have h1 := ((Bool.and_eq_true _ _).mp hc).1
        exact of_decide_eq_true h1
      omega
    · exact absurd h (by simp)

/-! ## ContentExtractor (`unified_moodle_scraper.py`, `extract_courses`) -/

/-- One candidate element of the course-extraction loop: `text_content` may
raise (per-element try/except continues), may be null, and the element may
expose a parent or sibling link. -/
structure CElem where
  textRaises : Bool := false
  text : Option String := none
  parentHref : Option String := none
  siblingHref : Option String := none
deriving Repr, DecidableEq

/-- An extracted course record.  The source's `parse_course_info` also derives
code/semester/year/faculty from the same name text via regexes; those derived
fields never affect which elements are extracted or how many records are
produced, so the embedding keeps the identifying fields. -/
structure CourseInfo where
  name : String
  link : String
deriving Repr, DecidableEq

/-- The course link: parent `href` first, else the following-sibling link. -/
def courseLinkOf (el : CElem) : String :=
  match el.parentHref with
  | some h => h
  | none =>
    match el.siblingHref with
    | some h => h
    | none => ""

/-- The exact-text denylist of `extract_courses`. -/
def courseDenylist : List String :=
  ["הודעות", "פרטיות", "העדפות הודעות", "כללי", "עזרה", "תמיכה",
   "מידע שימושי", "הקורסים שלי"]

/-- The per-element filter and append loop of `extract_courses`: minimum
length, de-duplication against already-collected names, denylist, prefix
denylist; a raising or filtered element is skipped and the loop continues. -/
def extractFromElems : List CElem → List CourseInfo → List CourseInfo
  | [], acc => acc
  | el :: rest, acc =>
    if el.textRaises then extractFromElems rest acc
    else
      match el.text with
      | none => extractFromElems rest acc
      | some t0 =>
        if (strTrim t0) ≠ "" then
          let t := (strTrim t0)
          if t.length > 5
              && !(acc.any (fun c => c.name == t))
              && !(courseDenylist.contains t)
              && !(strStartsWith t "תפריט")
              && !(strStartsWith t "הגדרות")
              && !(strStartsWith t "ראשי")
              && !(strStartsWith t "עדכונים") then
            extractFromElems rest (acc ++ [⟨t, courseLinkOf el⟩])
          else extractFromElems rest acc
        else extractFromElems rest acc

/-- `selectors_to_try` of `extract_courses`. -/
def courseSelectorsToTry : List String :=
  ["h5.multiline", "h5[class*=\"multiline\"]", ".multiline", "h5",
   ".course h5", ".course-title", ".course-name", ".course-card h5",
   ".coursebox h5"]

/-- `extract_courses`: selectors are tried in order over the shared `courses`
accumulator (`query_selector_all` raising skips the selector); the loop breaks
as soon as the accumulator is non-empty. -/
def extractCourses (env : String → Option (List CElem)) : List CourseInfo :=
  go courseSelectorsToTry []
where
  go : List String → List CourseInfo → List CourseInfo
    | [], acc => acc
    | s :: rest, acc =>
      match env s with
      | none => go rest acc
      | some elems =>
        let acc2 := extractFromElems elems acc
        if acc2.isEmpty then go rest acc2 else acc2

/-! ## Concrete environments used by the individual claim theorems -/

/-- A page with nothing on it. -/
def emptyPage : Page :=
  { url := "", content := "", query := fun _ => .notFound }

/-- A post-submit page state whose URL still carries the login marker, with no
error elements and no success elements, but whose HTML happens to contain the
word Dashboard (e.g. a promotional blurb on the login page). -/
def c3Env : SmartEnv :=
  { gotoResult := .ok true, waitLoad := .ok (),
    content := "<html><body><form id=login></form></body></html>",
    fillForm := .ok (), checkRaises := none,
    postUrl := "https://moodle.bgu.ac.il/moodle/login/index.php",
    postContent := "<div>Watch the Dashboard tour video</div>",
    waitSelector := fun _ => none }

/-- A clean failed-login page: login URL, no matching elements at all. -/
def c3WitEnv : SmartEnv :=
  { gotoResult := .ok true, waitLoad := .ok (),
    content := "<html><body>login</body></html>",
    fillForm := .ok (), checkRaises := none,
    postUrl := "https://moodle.bgu.ac.il/moodle/login/index.php",
    postContent := "<html><body>נסה שוב</body></html>",
    waitSelector := fun _ => none }

/-- The BGU-side page for the C3 witness: still on the login URL, nothing
matches. -/
def c3WitPage : Page :=
  { url := "https://moodle.bgu.ac.il/moodle/login/index.php",
    content := "", query := fun _ => .notFound }

/-- A page whose `.alert-danger` holds an unrelated banner: non-empty text
matching none of the credential-error patterns. -/
def c4Env : SmartEnv :=
  { gotoResult := .ok true, waitLoad := .ok (),
    content := "<html>login</html>", fillForm := .ok (), checkRaises := none,
    postUrl := "https://moodle.bgu.ac.il/moodle/login/index.php",
    postContent := "<html>login</html>",
    waitSelector := fun s =>
      if s == ".alert-danger" then
        some { visible := true, enabled := true,
               text := some "Session cookie problem banner" }
      else none }

/-- A page whose `.alert-danger` holds a genuine English credential error. -/
def c4EnvB : SmartEnv :=
  { gotoResult := .ok true, waitLoad := .ok (),
    content := "<html>login</html>", fillForm := .ok (), checkRaises := none,
    postUrl := "https://moodle.bgu.ac.il/moodle/login/index.php",
    postContent := "<html>login</html>",
    waitSelector := fun s =>
      if s == ".alert-danger" then
        some { visible := true, enabled := true,
               text := some "Invalid username or password" }
      else none }

/-- BGU page for the C4 witness: `.alert-danger` carries a pattern-matching
credential error. -/
def c4WitPage : Page :=
  { url := "https://moodle.bgu.ac.il/moodle/login/index.php",
    content := "",
    query := fun s =>
      if s == ".alert-danger" then
        .found { visible := true, enabled := true,
                 text := some "Invalid username or password" }
      else .notFound }

/-- Every BGU candidate URL serves HTTP 200 with a maintenance page (content
contains the keyword תחזוקה) and no login form. -/
def c5Env : String → BguUrlStep := fun u =>
  { nav := .status 200,
    page := { url := u,
              content := "<html><body>המערכת בתחזוקה כעת</body></html>",
              query := fun _ => .notFound },
    submitWait := none,
    postPage := emptyPage }

/-- Smart-validator environment whose first page is under maintenance. -/
def c5WitEnv : SmartEnv :=
  { gotoResult := .ok true, waitLoad := .ok (),
    content := "<html><body>המערכת בתחזוקה כעת</body></html>",
    fillForm := .ok (), checkRaises := none,
    postUrl := "", postContent := "", waitSelector := fun _ => none }

/-- First and second candidate URLs of the C6 witness scenario. -/
def c6Url1 : String := "https://moodle.bgu.ac.il/moodle/local/mydashboard/"

/-- Second candidate URL of the C6 witness scenario. -/
def c6Url2 : String := "https://moodle.bgu.ac.il/moodle/login/index.php"

/-- A login page with the primary username/password/submit elements present,
visible and enabled. -/
def c6FormPage : Page :=
  { url := c6Url2, content := "",
    query := fun s =>
      if s == "#login_username" || s == "#login_password" ||
          s == "input[type=\"submit\"]" then
        .found { visible := true, enabled := true, text := none }
      else .notFound }

/-- Post-submit page showing a credential error in `.alert-danger`. -/
def c6ErrorPage : Page :=
  { url := c6Url2, content := "",
    query := fun s =>
      if s == ".alert-danger" then
        .found { visible := true, enabled := true,
                 text := some "Invalid username or password" }
      else .notFound }

/-- C6 witness environment: the first URL answers HTTP 500; the second serves
the login form and the submitted credentials are rejected. -/
def c6WitEnv : String → BguUrlStep := fun u =>
  if u == c6Url1 then
    { nav := .status 500, page := emptyPage, submitWait := none,
      postPage := emptyPage }
  else
    { nav := .status 200, page := c6FormPage, submitWait := none,
      postPage := c6ErrorPage }

/-- First candidate URL of the HUJI C6 witness scenario. -/
def c6HujiUrl1 : String := "https://moodle.huji.ac.il/local/mydashboard/"

/-- Second candidate URL of the HUJI C6 witness scenario. -/
def c6HujiUrl2 : String := "https://moodle.huji.ac.il/moodle25/login/index.php"

/-- A plain HUJI login page (no CAS/SSO markers) with the primary
username/password/button elements visible and enabled. -/
def c6HujiFormPage : Page :=
  { url := c6HujiUrl2, content := "",
    query := fun s =>
      if s == "#username" || s == "#password" || s == "#loginbtn" then
        .found { visible := true, enabled := true, text := none }
      else .notFound }

/-- Post-submit HUJI page showing a credential error in `.alert-danger`. -/
def c6HujiErrorPage : Page :=
  { url := c6HujiUrl2, content := "",
    query := fun s =>
      if s == ".alert-danger" then
        .found { visible := true, enabled := true,
                 text := some "Invalid username or password" }
      else .notFound }

/-- HUJI C6 witness environment: HTTP 500 at the first URL; a regular login
form with rejected credentials at the second. -/
def c6HujiEnv : String → HujiUrlStep := fun u =>
  if u == c6HujiUrl1 then
    { nav := .status 500, page := emptyPage, ssoWait := none,
      submitWait := none, postPage := emptyPage }
  else
    { nav := .status 200, page := c6HujiFormPage, ssoWait := none,
      submitWait := none, postPage := c6HujiErrorPage }

/-- C8 witness elements: a too-short text, a denylisted label, a real course. -/
def c8Elem1 : CElem := { text := some "קורס" }

/-- The denylisted notifications label. -/
def c8Elem2 : CElem := { text := some "הודעות" }

/-- A genuine course element with a parent link. -/
def c8Elem3 : CElem :=
  { text := some "מבוא להנדסת תוכנה (364-1)",
    parentHref := some "https://moodle.bgu.ac.il/moodle/course/view.php?id=7" }

/-- C8 witness page environment: the primary selector yields the three
elements. -/
def c8WitEnv : String → Option (List CElem) := fun s =>
  if s == "h5.multiline" then some [c8Elem1, c8Elem2, c8Elem3] else none

/-- A validation outcome with `success=False` (rejected credentials). -/
def c9Validation : ValidationResult :=
  smartInvalidCreds "student9" "שם משתמש או סיסמה שגויים"

/-- Every delivery of the task raises a retryable connection error. -/
def c9RetryEnv : Nat → SyncEnv := fun _ =>
  { exn := some "Network connection timeout", credsFound := true,
    validation := c9Validation, extraction := .ok (0, 0, 0) }

/-- No step raises; the credential validation fails. -/
def c9AuthFailEnv : Nat → SyncEnv := fun _ =>
  { exn := none, credsFound := true,
    validation := c9Validation, extraction := .ok (0, 0, 0) }

/-- C10 witness: the login form fills fine and the post-submit page sits on a
success URL (`/my/`) while `.alert-danger` shows an explicit error. -/
def c10WitEnv : DevEnv :=
  { navRaises := none,
    prePage := { url := "https://moodle.bgu.ac.il/moodle/local/mydashboard/",
                 content := "",
                 query := fun s =>
                   if s == "#login_username" || s == "#login_password" ||
                       s == "input[type=\"submit\"]" then
                     .found { visible := true, enabled := true, text := none }
                   else .notFound },
    submitRaises := none,
    postPage := { url := "https://moodle.bgu.ac.il/moodle/my/",
                  content := "",
                  query := fun s =>
                    if s == ".alert-danger" then
                      .found { visible := true, enabled := true,
                               text := some "שגיאה: שם משתמש שגוי" }
                    else .notFound } }

/-! ## Helper lemmas -/

/-- `BGUAuthenticator._fill_field` is exactly a first-fit search for a
visible+enabled match, for every starting index. -/
theorem bguFillFieldIdx_eq_findIdx (p : Page) (v fn : String) :
    ∀ (sels : List String) (i : Nat),
      bguFillFieldIdx p v fn sels i = sels.findIdx? (fun s => qualifies p s) i := by
  intro sels
  induction sels with
  | nil => intro i; simp [bguFillFieldIdx, List.findIdx?_nil]
  | cons s rest ih =>
    intro i
    rw [bguFillFieldIdx, List.findIdx?_cons]
    cases h : p.query s with
    | found e =>
      by_cases hq : (e.visible && e.enabled) = true
      · simp [h, hq, qualifies]
      · simp [h, hq, qualifies, ih]
    | notFound => simp [h, qualifies, ih]
    | raises => simp [h, qualifies, ih]

/-- Same first-fit characterization for `DevMoodleValidator._try_fill_field`. -/
theorem devTryFillFieldIdx_eq_findIdx (p : Page) (v : String) :
    ∀ (sels : List String) (i : Nat),
      devTryFillFieldIdx p v sels i = sels.findIdx? (fun s => qualifies p s) i := by
  intro sels
  induction sels with
  | nil => intro i; simp [devTryFillFieldIdx, List.findIdx?_nil]
  | cons s rest ih =>
    intro i
    rw [devTryFillFieldIdx, List.findIdx?_cons]
    cases h : p.query s with
    | found e =>
      by_cases hq : (e.visible && e.enabled) = true
      · simp [h, hq, qualifies]
      · simp [h, hq, qualifies, ih]
    | notFound => simp [h, qualifies, ih]
    | raises => simp [h, qualifies, ih]

/-- `findIdx?` finds something exactly when some list element satisfies the
predicate. -/
theorem findIdx_isSome_eq_any (q : String → Bool) :
    ∀ (sels : List String) (i : Nat),
      (sels.findIdx? q i).isSome = sels.any q := by
  intro sels
  induction sels with
  | nil => intro i; simp [List.findIdx?_nil]
  | cons s rest ih =>
    intro i
    rw [List.findIdx?_cons]
    by_cases hq : q s = true
    · simp [hq]
    · simp [hq, ih]

/-! ## Claim theorems -/

/-- Claim C7 (confirmed): the selector resolvers of
`BGUAuthenticator._fill_field` and `DevMoodleValidator._try_fill_field` fill
exactly the first candidate whose element is visible and enabled (never a
later one; an existing but hidden or disabled element and a raising lookup
are skipped), and they report failure exactly when no candidate in the whole
list qualifies. -/
theorem C7_selector_first_fit (p : Page) (v fn : String) (sels : List String) :
    bguFillFieldIdx p v fn sels 0 = sels.findIdx? (fun s => qualifies p s) ∧
    devTryFillFieldIdx p v sels 0 = sels.findIdx? (fun s => qualifies p s) ∧
    bguFillField p sels v fn = sels.any (fun s => qualifies p s) ∧
    devTryFillField p sels v = sels.any (fun s => qualifies p s) := by
  refine ⟨bguFillFieldIdx_eq_findIdx p v fn sels 0,
          devTryFillFieldIdx_eq_findIdx p v sels 0, ?_, ?_⟩
  · rw [bguFillField, bguFillFieldIdx_eq_findIdx,
      findIdx_isSome_eq_any (fun s => qualifies p s) sels 0]
  · rw [devTryFillField, devTryFillFieldIdx_eq_findIdx,
      findIdx_isSome_eq_any (fun s => qualifies p s) sels 0]

/-- Claim C1 (corrected, counterexample): `TAUScraper.validate_credentials`
returns the result kind `not_implemented`, which lies outside the closed set
of `AuthenticationResult` values, so not every validate_credentials path of
every institution stays inside the closed set. -/
theorem C1_counterexample :
    (tauValidateCredentials "student1").result ∉ closedResultKinds ∧
    (tauValidateCredentials "student1").success = false ∧
    (hujiValidateCredentials "student1").result ∉ closedResultKinds := by
  refine ⟨by decide, rfl, by decide⟩

/-- Claim C1 (amended): every `ValidationResult` constructed by
`SmartMoodleValidator.validate_credentials` carries a result kind from the
closed set and has `success = true` exactly when the kind is `success`; the
TAU/HUJI stubs (and the dev/BGU exception fallbacks) instead use kinds
outside the set, though still with `success = false`. -/
theorem C1_closed_set (env : SmartEnv) (u : String) :
    (smartValidateCredentials env u).result ∈ closedResultKinds ∧
    ((smartValidateCredentials env u).success = true ↔
      (smartValidateCredentials env u).result = "success") ∧
    (tauValidateCredentials u).success = false ∧
    (hujiValidateCredentials u).success = false := by
  have hclr : (smartCheckLoginResult env u).result ∈ closedResultKinds ∧
      ((smartCheckLoginResult env u).success = true ↔
        (smartCheckLoginResult env u).result = "success") := by
    unfold smartCheckLoginResult smartInvalidCreds smartSuccessResult
    split
    · constructor <;> simp [closedResultKinds]
    · split
      · constructor <;> simp [closedResultKinds]
      · by_cases hb : smartLoginSuccessful env = true <;>
          simp only [hb, if_true, if_false, Bool.false_eq_true, ite_false,
            ite_true] <;>
          constructor <;> simp [closedResultKinds]
  have hto : ∀ e r, smartTimeoutOr u e = .ok r →
      r.result ∈ closedResultKinds ∧
        (r.success = true ↔ r.result = "success") := by
    intro e r h
    unfold smartTimeoutOr at h
    split at h
    · cases h; constructor <;> simp [closedResultKinds]
    · simp at h
  have hperf : ∀ r, smartPerformRealLogin env u = .ok r →
      r.result ∈ closedResultKinds ∧
        (r.success = true ↔ r.result = "success") := by
    intro r h
    unfold smartPerformRealLogin at h
    split at h
    · exact hto _ r h
    · split at h
      · cases h; constructor <;> simp [closedResultKinds]
      · split at h
        · exact hto _ r h
        · split at h
          · cases h; constructor <;> simp [closedResultKinds]
          · split at h
            · exact hto _ r h
            · cases h; exact hclr
  have main : (smartValidateCredentials env u).result ∈ closedResultKinds ∧
      ((smartValidateCredentials env u).success = true ↔
        (smartValidateCredentials env u).result = "success") := by
    unfold smartValidateCredentials
    cases h : smartPerformRealLogin env u with
    | ok r => simpa using hperf r h
    | error e =>
      simp only [h]
      constructor <;> simp [closedResultKinds]
  exact ⟨main.1, main.2, rfl, rfl⟩

/-- Claim C2 (corrected, counterexample): with the HUJI ceiling of 20
requests/minute, the counter window opened by a request at t=0 admits 19 more
requests at t=59; it expires at t=60, where a fresh window admits 20 further
requests — so the rolling 60-second window [59,118] sees 39 admissions,
nearly twice the ceiling.  The fixed-window counter does not enforce the
rolling-window bound the claim states. -/
theorem C2_counterexample :
    (((0 :: (List.replicate 19 59 ++ List.replicate 20 60)).zip
        (rateTrace hujiRequestsPerMinute
          (0 :: (List.replicate 19 59 ++ List.replicate 20 60)) none).1).countP
      (fun p => p.2 && (decide (59 ≤ p.1) && decide (p.1 ≤ 118))) = 39) ∧
    hujiRequestsPerMinute < 39 := by
  constructor
  · decide
  · decide

/-- Claim C2 (amended): for a fixed (tenant, institution) pair the admission
check enforces a fixed-window bound, not a rolling-window one: a denied call
leaves the stored counter unchanged, the counter never passes the
requests-per-minute ceiling, and within one counter window (opened by its
first admitted request and expiring 60 seconds later) at most
`requests_per_minute` calls return True; a rolling 60-second window straddling
two counter windows can admit up to twice the ceiling minus one. -/
theorem C2_fixed_window (maxReq : Nat) (hmax : 1 ≤ maxReq) :
    (∀ now s, (checkRateLimits maxReq now s).1 = false →
      (checkRateLimits maxReq now s).2 = s) ∧
    (∀ now w w', w.count ≤ maxReq →
      (checkRateLimits maxReq now (some w)).2 = some w' →
      w'.count ≤ maxReq) ∧
    (∀ t0 ts, (∀ t ∈ ts, t < t0 + 60) →
      (rateTrace maxReq (t0 :: ts) none).1.count true ≤ maxReq) := by
  refine ⟨?_, ?_, ?_⟩
  · intro now s h
    cases s with
    | none => simp [checkRateLimits] at h
    | some w =>
      simp only [checkRateLimits] at h ⊢
      split at h
      · simp at h
      · split at h
        · rename_i h1 h2
          rw [if_neg h1, if_pos h2]
        · simp at h
  · intro now w w' hw h
    simp only [checkRateLimits] at h
    split at h
    · cases h; exact hmax
    · split at h
      · cases h; exact hw
      · rename_i hcnt
        cases h
        simp only [Nat.not_le] at hcnt
        · exact hcnt
  · intro t0 ts hts
    have aux : ∀ (l : List Nat) (c : Nat), (∀ t ∈ l, t < t0 + 60) →
        (rateTrace maxReq l (some ⟨t0, c⟩)).1.count true ≤ maxReq - c := by
      intro l
      induction l with
      | nil => intro c _; simp [rateTrace]
      | cons t rest ih =>
        intro c hl
        have ht : t < t0 + 60 := hl t (by simp)
        have hrest : ∀ x ∈ rest, x < t0 + 60 := fun x hx => hl x (by simp [hx])
        simp only [rateTrace, checkRateLimits]
        rw [if_neg (by omega)]
        by_cases hc : c ≥ maxReq
        · rw [if_pos hc]
          simpa using ih c hrest
        · rw [if_neg hc]
          have := ih (c + 1) hrest
          simp only [List.count_cons, beq_self_eq_true, if_true]
          omega
    simp only [rateTrace, checkRateLimits, List.count_cons, beq_self_eq_true,
      if_true]
    have := aux ts 1 hts
    omega

/-- Witness for C2's amended theorem at the HUJI ceiling. -/
theorem C2_fixed_window_witness :
    (rateTrace hujiRequestsPerMinute (5 :: [10, 20]) none).1.count true ≤
      hujiRequestsPerMinute :=
  (C2_fixed_window hujiRequestsPerMinute (by decide)).2.2 5 [10, 20]
    (by decide)

/-- Claim C3 (corrected, counterexample): a post-submit page that satisfies
every hypothesis of the claim — no error text, the URL still carries the
login marker, and no configured success-indicator selector matches — is
nevertheless classified SUCCESS by `SmartMoodleValidator._check_login_result`
when the page content happens to contain one of the hard-coded dashboard
keywords (here the word "Dashboard" in a promotional blurb). -/
theorem C3_counterexample :
    smartCheckForErrors c3Env = none ∧
    strContains (strLower c3Env.postUrl) "login" = true ∧
    smartSuccessIndicators.all
      (fun ind => (c3Env.waitSelector ind).isNone) = true ∧
    (smartCheckLoginResult c3Env "student3").result = "success" ∧
    (smartCheckLoginResult c3Env "student3").success = true := by
  refine ⟨by decide, by decide, by decide, by decide, by decide⟩

/-- Claim C3 (amended): under the claim's hypotheses the classifier is
pessimistic provided, in the SmartMoodleValidator case, that the page content
additionally contains none of the hard-coded dashboard keywords; the
BGU authenticator needs no extra condition. -/
theorem C3_pessimistic (env : SmartEnv) (u : String) (p : Page)
    (h1 : env.checkRaises = none)
    (h2 : smartCheckForErrors env = none)
    (h3 : strContains (strLower env.postUrl) "login" = true)
    (h4 : smartSuccessIndicators.all
      (fun ind => (env.waitSelector ind).isNone) = true)
    (h5 : containsAny (strLower env.postContent) smartDashboardKeywords = false)
    (hb1 : bguCheckForErrors p = none)
    (hb2 : bguSuccessIndicators.all
      (fun ind => !(strContains p.url ind)) = true)
    (hb3 : strContains (strLower p.url) "login" = true) :
    smartCheckLoginResult env u =
      smartInvalidCreds u "שם משתמש או סיסמה שגויים" ∧
    bguCheckAuthenticationResult p =
      bguInvalidCreds "שם משתמש או סיסמה שגויים" p.url := by
  constructor
  · have hflag : smartLoginSuccessful env = false := by
      unfold smartLoginSuccessful
      rw [h3, h5]
      simp only [Bool.not_true, Bool.false_or, Bool.or_false,
        List.any_eq_false]
      intro ind hind
      have := (List.all_eq_true.mp h4) ind hind
      simp_all [Option.isNone_iff_eq_none]
    unfold smartCheckLoginResult
    simp only [h1, h2, hflag, Bool.false_eq_true, if_false]
  · have hurl : bguSuccessIndicators.any
        (fun ind => strContains p.url ind) = false := by
      simp only [List.any_eq_false]
      intro ind hind
      have := (List.all_eq_true.mp hb2) ind hind
      simpa using this
    unfold bguCheckAuthenticationResult
    simp only [hb1, hurl, Bool.false_eq_true, if_false, hb3, Bool.not_true]

/-- Witness for C3's amended theorem on a clean failed login. -/
theorem C3_pessimistic_witness :
    smartCheckLoginResult c3WitEnv "student3w" =
      smartInvalidCreds "student3w" "שם משתמש או סיסמה שגויים" ∧
    bguCheckAuthenticationResult c3WitPage =
      bguInvalidCreds "שם משתמש או סיסמה שגויים" c3WitPage.url :=
  C3_pessimistic c3WitEnv "student3w" c3WitPage (by decide) (by decide)
    (by decide) (by decide) (by decide) (by decide) (by decide) (by decide)

/-- Claim C4 (corrected, counterexample): in
`SmartMoodleValidator._check_for_errors` a non-empty error-selector text that
matches no credential-error pattern (an unrelated banner) is still returned —
and `_check_login_result` then yields INVALID_CREDENTIALS; moreover a
recognized English error ("Invalid username or password") is replaced by a
canned Hebrew translation, not surfaced verbatim. -/
theorem C4_counterexample :
    containsAny (strLower "Session cookie problem banner")
      bguErrorTextPatterns = false ∧
    smartCheckForErrors c4Env = some "Session cookie problem banner" ∧
    (smartCheckLoginResult c4Env "student4").result = "invalid_credentials" ∧
    (smartCheckLoginResult c4Env "student4").messageHe =
      "Session cookie problem banner" ∧
    smartCheckForErrors c4EnvB = some "שם משתמש או סיסמה אינם נכונים" ∧
    ("שם משתמש או סיסמה אינם נכונים" : String) ≠
      "Invalid username or password" := by
  refine ⟨by decide, by decide, by decide, by decide, by decide, by simp⟩

/-- Claim C4 (amended): in `BGUAuthenticator._check_for_errors` the claim
holds — the scan yields INVALID_CREDENTIALS only for a visible element whose
text matches one of the bilingual error-text patterns, and that text is
surfaced verbatim (stripped) as message_he. -/
theorem C4_error_scan (p : Page) (t : String)
    (hscan : bguCheckForErrors p = some t) :
    bguCheckAuthenticationResult p = bguInvalidCreds t p.url ∧
    ∃ s ∈ bguErrorSelectors, ∃ e tx, p.query s = .found e ∧
      e.visible = true ∧ e.text = some tx ∧
      containsAny (strLower tx) bguErrorTextPatterns = true ∧ t = (strTrim tx) := by
  constructor
  · unfold bguCheckAuthenticationResult
    simp only [hscan]
  · have hgo : ∀ (l : List String) (t' : String),
        bguCheckForErrors.go p l = some t' →
        ∃ s ∈ l, ∃ e tx, p.query s = .found e ∧ e.visible = true ∧
          e.text = some tx ∧
          containsAny (strLower tx) bguErrorTextPatterns = true ∧
          t' = (strTrim tx) := by
      intro l
      induction l with
      | nil => intro t' h; simp [bguCheckForErrors.go] at h
      | cons s rest ih =>
        intro t' h
        rw [bguCheckForErrors.go] at h
        split at h
        · rename_i e heq
          split at h
          · rename_i hv
            split at h
            · rename_i tx htx
              split at h
              · rename_i hne
                split at h
                · rename_i hpat
                  cases h
                  exact ⟨s, by simp, e, tx, heq, hv, htx, hpat, rfl⟩
                · obtain ⟨s', hs', r'⟩ := ih t' h
                  exact ⟨s', by simp [hs'], r'⟩
              · obtain ⟨s', hs', r'⟩ := ih t' h
                exact ⟨s', by simp [hs'], r'⟩
            · obtain ⟨s', hs', r'⟩ := ih t' h
              exact ⟨s', by simp [hs'], r'⟩
          · obtain ⟨s', hs', r'⟩ := ih t' h
            exact ⟨s', by simp [hs'], r'⟩
        · obtain ⟨s', hs', r'⟩ := ih t' h
          exact ⟨s', by simp [hs'], r'⟩
    exact hgo bguErrorSelectors t hscan

/-- Witness for C4's amended theorem on a genuine credential error. -/
theorem C4_error_scan_witness :
    bguCheckAuthenticationResult c4WitPage =
      bguInvalidCreds "Invalid username or password" c4WitPage.url ∧
    ∃ s ∈ bguErrorSelectors, ∃ e tx, c4WitPage.query s = .found e ∧
      e.visible = true ∧ e.text = some tx ∧
      containsAny (strLower tx) bguErrorTextPatterns = true ∧
      "Invalid username or password" = (strTrim tx) :=
  C4_error_scan c4WitPage "Invalid username or password" (by decide)

/-- Claim C5 (corrected, counterexample): the multi-URL executor
`BGUAuthenticator.try_multiple_urls` performs no maintenance classification at
all: when the first URL serves a maintenance page (content contains תחזוקה),
it goes on to attempt every remaining candidate URL and finally reports
NETWORK_ERROR, not MAINTENANCE. -/
theorem C5_counterexample :
    isMaintenancePage
      (c5Env "https://moodle.bgu.ac.il/moodle/local/mydashboard/").page =
        true ∧
    (bguTryMultipleUrls c5Env "user5" "pw5").2 = bguUrls ∧
    (bguTryMultipleUrls c5Env "user5" "pw5").1 = bguAllUrlsFailed ∧
    bguAllUrlsFailed.error ≠ "MAINTENANCE" := by
  refine ⟨by decide, by decide, by decide, by simp [bguAllUrlsFailed]⟩

/-- Claim C5 (amended): only the single-URL `SmartMoodleValidator` performs
the maintenance short-circuit: when the entry page's content contains a
maintenance keyword, `validate_credentials` returns immediately with
result_kind maintenance and a Hebrew message containing תחזוקה, regardless of
every later step (form fill, post-submit state). -/
theorem C5_maintenance_short_circuit (env : SmartEnv) (u : String)
    (h1 : env.gotoResult = .ok true)
    (h2 : env.waitLoad = .ok ())
    (h3 : containsAny (strLower env.content) smartMaintenanceKeywords = true) :
    smartValidateCredentials env u =
      { success := false, result := "maintenance",
        messageHe := "המערכת במצב תחזוקה כעת",
        messageEn := "System is under maintenance",
        university := "bgu", username := u } ∧
    strContains "המערכת במצב תחזוקה כעת" "תחזוקה" = true := by
  constructor
  · unfold smartValidateCredentials smartPerformRealLogin
    simp only [h1, h2, h3]
    simp
  · rfl

/-- Witness for C5's amended theorem on a maintenance page. -/
theorem C5_maintenance_witness :
    smartValidateCredentials c5WitEnv "student5" =
      { success := false, result := "maintenance",
        messageHe := "המערכת במצב תחזוקה כעת",
        messageEn := "System is under maintenance",
        university := "bgu", username := "student5" } ∧
    strContains "המערכת במצב תחזוקה כעת" "תחזוקה" = true :=
  C5_maintenance_short_circuit c5WitEnv "student5" rfl rfl (by decide)

/-- Claim C6 (confirmed): both `BGUAuthenticator.try_multiple_urls` and
`HUJIAuthenticator.try_multiple_urls` walk the candidate URLs strictly in
profile order (the attempted list is a prefix of the configured order); a
navigation exception, a missing response or an HTTP status ≥ 400 moves on to
the next URL without raising; and an INVALID_CREDENTIALS attempt (whatever
branch — CAS, SSO or regular — produced it, in the HUJI case) ends the loop
immediately with that outcome, no later URL being attempted. -/
theorem C6_url_fallback (envB : String → BguUrlStep)
    (envH : String → HujiUrlStep) (un pw : String) :
    (∀ u rest, ((envB u).nav = .raises ∨ (envB u).nav = .noResp ∨
        ∃ n, (envB u).nav = .status n ∧ 400 ≤ n) →
      bguTryUrlsGo envB un pw (u :: rest) =
        ((bguTryUrlsGo envB un pw rest).1,
          u :: (bguTryUrlsGo envB un pw rest).2)) ∧
    (∀ u rest n, (envB u).nav = .status n → n < 400 →
      bguCheckLoginFormExists (envB u).page = true →
      (bguAttemptLogin (envB u) un pw).success = false →
      (bguAttemptLogin (envB u) un pw).errorType =
        some "INVALID_CREDENTIALS" →
      bguTryUrlsGo envB un pw (u :: rest) =
        (bguAttemptLogin (envB u) un pw, [u])) ∧
    (∀ urls, (bguTryUrlsGo envB un pw urls).2 <+: urls) ∧
    (∀ u rest, ((envH u).nav = .raises ∨ (envH u).nav = .noResp ∨
        ∃ n, (envH u).nav = .status n ∧ 400 ≤ n) →
      hujiTryUrlsGo envH un pw (u :: rest) =
        ((hujiTryUrlsGo envH un pw rest).1,
          u :: (hujiTryUrlsGo envH un pw rest).2)) ∧
    (∀ u rest n lr, (envH u).nav = .status n → n < 400 →
      hujiBranchResult (envH u) un pw = some lr →
      lr.success = false →
      lr.errorType = some "INVALID_CREDENTIALS" →
      hujiTryUrlsGo envH un pw (u :: rest) = (lr, [u])) ∧
    (∀ urls, (hujiTryUrlsGo envH un pw urls).2 <+: urls) := by
  refine ⟨?_, ?_, ?_, ?_, ?_, ?_⟩
  · intro u rest h
    rcases h with h | h | ⟨n, hn, hge⟩
    · simp only [bguTryUrlsGo, h]
    · simp only [bguTryUrlsGo, h]
    · simp only [bguTryUrlsGo, hn]
      rw [if_pos hge]
  · intro u rest n hn hlt hform hsucc herr
    simp only [bguTryUrlsGo, hn]
    rw [if_neg (by omega)]
    simp only [hform, Bool.not_true, Bool.false_eq_true, if_false, hsucc,
      herr]
    simp
  · intro urls
    induction urls with
    | nil => simp [bguTryUrlsGo]
    | cons u rest ih =>
      simp only [bguTryUrlsGo]
      obtain ⟨tl, htl⟩ := ih
      cases hnav : (envB u).nav with
      | raises => exact ⟨tl, by simp [htl]⟩
      | noResp => exact ⟨tl, by simp [htl]⟩
      | status n =>
        dsimp only
        by_cases hge : n ≥ 400
        · rw [if_pos hge]
          exact ⟨tl, by simp [htl]⟩
        · rw [if_neg hge]
          by_cases hform : bguCheckLoginFormExists (envB u).page = true
          · simp only [hform, Bool.not_true, Bool.false_eq_true, if_false]
            by_cases hsucc : (bguAttemptLogin (envB u) un pw).success = true
            · simp only [hsucc, if_true]
              exact ⟨rest, rfl⟩
            · simp only [hsucc, Bool.false_eq_true, if_false]
              rcases hbe : ((bguAttemptLogin (envB u) un pw).errorType ==
                  some "INVALID_CREDENTIALS") with _ | _
              · simp only [hbe, Bool.false_eq_true, if_false]
                exact ⟨tl, by simp [htl]⟩
              · simp only [hbe, if_true]
                exact ⟨rest, rfl⟩
          · simp only [Bool.not_eq_true] at hform
            simp only [hform, Bool.not_false, if_true]
            exact ⟨tl, by simp [htl]⟩
  · intro u rest h
    rcases h with h | h | ⟨n, hn, hge⟩
    · simp only [hujiTryUrlsGo, h]
    · simp only [hujiTryUrlsGo, h]
    · simp only [hujiTryUrlsGo, hn]
      rw [if_pos hge]
  · intro u rest n lr hn hlt hbr hsucc herr
    simp only [hujiTryUrlsGo, hn]
    rw [if_neg (by omega)]
    simp only [hbr, hsucc, Bool.false_eq_true, if_false, herr]
    simp
  · intro urls
    induction urls with
    | nil => simp [hujiTryUrlsGo]
    | cons u rest ih =>
      simp only [hujiTryUrlsGo]
      obtain ⟨tl, htl⟩ := ih
      cases hnav : (envH u).nav with
      | raises => exact ⟨tl, by simp [htl]⟩
      | noResp => exact ⟨tl, by simp [htl]⟩
      | status n =>
        dsimp only
        by_cases hge : n ≥ 400
        · rw [if_pos hge]
          exact ⟨tl, by simp [htl]⟩
        · rw [if_neg hge]
          cases hbr : hujiBranchResult (envH u) un pw with
          | none =>
            simp only [hbr]
            exact ⟨tl, by simp [htl]⟩
          | some lr =>
            simp only [hbr]
            by_cases hsucc : lr.success = true
            · simp only [hsucc, if_true]
              exact ⟨rest, rfl⟩
            · simp only [hsucc, Bool.false_eq_true, if_false]
              rcases hbe : (lr.errorType == some "INVALID_CREDENTIALS") with
                _ | _
              · simp only [hbe, Bool.false_eq_true, if_false]
                exact ⟨tl, by simp [htl]⟩
              · simp only [hbe, if_true]
                exact ⟨rest, rfl⟩

/-- Witness for C6 on both institutions' two-URL scenarios: HTTP 500 at the
first URL, a rejected login at the second, and the prefix property over the
full configured URL lists. -/
theorem C6_url_fallback_witness :
    (bguTryUrlsGo c6WitEnv "user6" "pw6" (c6Url1 :: [c6Url2]) =
      ((bguTryUrlsGo c6WitEnv "user6" "pw6" [c6Url2]).1,
        c6Url1 :: (bguTryUrlsGo c6WitEnv "user6" "pw6" [c6Url2]).2)) ∧
    (bguTryUrlsGo c6WitEnv "user6" "pw6" (c6Url2 :: []) =
      (bguAttemptLogin (c6WitEnv c6Url2) "user6" "pw6", [c6Url2])) ∧
    ((bguTryUrlsGo c6WitEnv "user6" "pw6" bguUrls).2 <+: bguUrls) ∧
    (hujiTryUrlsGo c6HujiEnv "user6" "pw6" (c6HujiUrl1 :: [c6HujiUrl2]) =
      ((hujiTryUrlsGo c6HujiEnv "user6" "pw6" [c6HujiUrl2]).1,
        c6HujiUrl1 :: (hujiTryUrlsGo c6HujiEnv "user6" "pw6"
          [c6HujiUrl2]).2)) ∧
    (hujiTryUrlsGo c6HujiEnv "user6" "pw6" (c6HujiUrl2 :: []) =
      (hujiAttemptRegularLogin (c6HujiEnv c6HujiUrl2) "user6" "pw6" false,
        [c6HujiUrl2])) ∧
    ((hujiTryUrlsGo c6HujiEnv "user6" "pw6" hujiUrls).2 <+: hujiUrls) := by
  refine ⟨(C6_url_fallback c6WitEnv c6HujiEnv "user6" "pw6").1 c6Url1
      [c6Url2] (Or.inr (Or.inr ⟨500, by decide, by omega⟩)),
    (C6_url_fallback c6WitEnv c6HujiEnv "user6" "pw6").2.1 c6Url2 [] 200
      (by decide) (by omega) (by decide) (by decide) (by decide),
    (C6_url_fallback c6WitEnv c6HujiEnv "user6" "pw6").2.2.1 bguUrls,
    (C6_url_fallback c6WitEnv c6HujiEnv "user6" "pw6").2.2.2.1 c6HujiUrl1
      [c6HujiUrl2] (Or.inr (Or.inr ⟨500, by decide, by omega⟩)),
    (C6_url_fallback c6WitEnv c6HujiEnv "user6" "pw6").2.2.2.2.1 c6HujiUrl2
      [] 200 (hujiAttemptRegularLogin (c6HujiEnv c6HujiUrl2) "user6" "pw6"
        false) (by decide) (by omega) (by decide) (by decide) (by decide),
    (C6_url_fallback c6WitEnv c6HujiEnv "user6" "pw6").2.2.2.2.2 hujiUrls⟩

/-- Claim C8 (confirmed): with three candidate elements of which one is below
the minimum visible-text length (≤ 5 after stripping), one matches the
denylist label הודעות, and one is a genuine course, `extract_courses` returns
exactly one record; and an element whose text extraction raises is skipped
without aborting the extraction of the others. -/
theorem C8_extractor_filters (envE : String → Option (List CElem))
    (e1 e2 e3 : CElem) (t1 t3 : String)
    (henv : envE "h5.multiline" = some [e1, e2, e3])
    (h1a : e1.textRaises = false) (h1b : e1.text = some t1)
    (h1c : (strTrim t1).length ≤ 5)
    (h2a : e2.textRaises = false) (h2b : e2.text = some "הודעות")
    (h3a : e3.textRaises = false) (h3b : e3.text = some t3)
    (h3c : 5 < (strTrim t3).length)
    (h3d : courseDenylist.contains (strTrim t3) = false)
    (h3e : strStartsWith (strTrim t3) "תפריט" = false)
    (h3f : strStartsWith (strTrim t3) "הגדרות" = false)
    (h3g : strStartsWith (strTrim t3) "ראשי" = false)
    (h3h : strStartsWith (strTrim t3) "עדכונים" = false) :
    extractCourses envE = [⟨strTrim t3, courseLinkOf e3⟩] ∧
    (∀ (bad : CElem) (elems : List CElem) (acc : List CourseInfo),
      bad.textRaises = true →
      extractFromElems (bad :: elems) acc = extractFromElems elems acc) := by
  constructor
  · have step3 : extractFromElems [e3] [] =
        [⟨strTrim t3, courseLinkOf e3⟩] := by
      rw [extractFromElems]
      simp only [h3a, Bool.false_eq_true, if_false, h3b]
      have hne : (strTrim t3 ≠ "") := by
        intro hcon
        rw [hcon] at h3c
        simp at h3c
      rw [if_pos hne]
      have h3dm : strTrim t3 ∉ courseDenylist := by simpa using h3d
      rw [if_pos (by simp [h3c, h3dm, h3e, h3f, h3g, h3h])]
      rw [extractFromElems]
      simp
    have step2 : extractFromElems [e2, e3] [] =
        [⟨strTrim t3, courseLinkOf e3⟩] := by
      rw [extractFromElems]
      simp only [h2a, Bool.false_eq_true, if_false, h2b]
      rw [if_pos (by decide)]
      rw [if_neg (by decide)]
      exact step3
    have step1 : extractFromElems [e1, e2, e3] [] =
        [⟨strTrim t3, courseLinkOf e3⟩] := by
      rw [extractFromElems]
      simp only [h1a, Bool.false_eq_true, if_false, h1b]
      by_cases hte : strTrim t1 = ""
      · rw [if_neg (by simp [hte])]
        exact step2
      · rw [if_pos hte]
        have hlenf : decide ((strTrim t1).length > 5) = false := by
          simp
          omega
        rw [if_neg (by simp [hlenf])]
        exact step2
    unfold extractCourses courseSelectorsToTry
    rw [extractCourses.go]
    simp only [henv, step1]
    rfl
  · intro bad elems acc hb
    rw [extractFromElems]
    simp [hb]

/-- Witness for C8: a four-character text, the הודעות label and a real
course title. -/
theorem C8_extractor_filters_witness :
    extractCourses c8WitEnv =
      [⟨strTrim "מבוא להנדסת תוכנה (364-1)", courseLinkOf c8Elem3⟩] ∧
    (∀ (bad : CElem) (elems : List CElem) (acc : List CourseInfo),
      bad.textRaises = true →
      extractFromElems (bad :: elems) acc = extractFromElems elems acc) :=
  C8_extractor_filters c8WitEnv c8Elem1 c8Elem2 c8Elem3 "קורס"
    "מבוא להנדסת תוכנה (364-1)" (by decide) rfl rfl (by decide) rfl rfl rfl
    rfl (by decide) (by decide) (by decide) (by decide) (by decide)
    (by decide)

/-- `runSync` when the attempt finishes. -/
theorem runSync_done (env : Nat → SyncEnv) (a : Nat) (r : SyncResult)
    (h : syncAttempt env a = .done r) : runSync env a = (r, []) := by
  rw [runSync]
  split
  · rename_i r' h'
    rw [h] at h'
    injection h' with h''
    rw [h'']
  · rename_i d h'
    rw [h] at h'
    cases h'

/-- `runSync` when the attempt schedules a retry. -/
theorem runSync_retry (env : Nat → SyncEnv) (a d : Nat)
    (h : syncAttempt env a = .retryIn d) :
    runSync env a =
      ((runSync env (a + 1)).1, (a, d) :: (runSync env (a + 1)).2) := by
  rw [runSync]
  split
  · rename_i r' h'
    rw [h] at h'
    cases h'
  · rename_i d' h'
    rw [h] at h'
    injection h' with h''
    rw [h'']

/-- A retry is only scheduled for a raising, retryable-message attempt below
the retry cap, with the configured backoff. -/
theorem syncAttempt_retry_inv (env : Nat → SyncEnv) (a d : Nat)
    (h : syncAttempt env a = .retryIn d) :
    (∃ m, syncBody (env a) = .exn m ∧ retryableMsg m = true) ∧
    d = 120 * (a + 1) ∧ a < syncMaxRetries := by
  unfold syncAttempt at h
  cases hb : syncBody (env a) with
  | ok r => rw [hb] at h; cases h
  | exn m =>
    rw [hb] at h
    dsimp only at h
    by_cases hc : (decide (a < syncMaxRetries) && retryableMsg m) = true
    · rw [if_pos hc] at h
      injection h with h'
      have hand := (Bool.and_eq_true _ _).mp hc
      exact ⟨⟨m, rfl, hand.2⟩, h'.symm, of_decide_eq_true hand.1⟩
    · rw [if_neg hc] at h
      cases h

/-- Past the retry cap the task always finishes. -/
theorem syncAttempt_done_of_cap (env : Nat → SyncEnv) (a : Nat)
    (ha : syncMaxRetries ≤ a) : ∃ r, syncAttempt env a = .done r := by
  unfold syncAttempt
  cases hb : syncBody (env a) with
  | ok r => exact ⟨r, rfl⟩
  | exn m =>
    refine ⟨taskErrorResult m, ?_⟩
    dsimp only
    rw [if_neg]
    intro hc
    have := of_decide_eq_true ((Bool.and_eq_true _ _).mp hc).1
    omega

/-- Claim C9 (confirmed): `sync_user_data` retries only a raised failure whose
message marks a network/timeout/connection error, with backoff
120·(attempt+1), at most `max_retries` times — after which it terminates with
the task_error failure dictionary; an authentication outcome with
success=False returns the authentication_failed dictionary on the first
delivery and is never retried. -/
theorem C9_retry_policy (env : Nat → SyncEnv) :
    (∀ a d, syncAttempt env a = .retryIn d →
      (∃ m, syncBody (env a) = .exn m ∧ retryableMsg m = true) ∧
      d = 120 * (a + 1) ∧ a < syncMaxRetries) ∧
    ((runSync env 0).2.length ≤ syncMaxRetries) ∧
    (∀ q ∈ (runSync env 0).2, q.2 = 120 * (q.1 + 1)) ∧
    ((∀ n, n ≤ syncMaxRetries →
        ∃ m, syncBody (env n) = .exn m ∧ retryableMsg m = true) →
      (runSync env 0).1.error = "task_error" ∧
      (runSync env 0).1.success = false ∧
      (runSync env 0).2 = [(0, 120), (1, 240), (2, 360)]) ∧
    ((env 0).exn = none → (env 0).credsFound = true →
      (env 0).validation.success = false →
      runSync env 0 =
        ({ success := false, error := "authentication_failed",
           messageHe := (env 0).validation.messageHe,
           messageEn := (env 0).validation.messageEn }, [])) := by
  have hlen : ∀ k a, syncMaxRetries + 1 ≤ a + k →
      (runSync env a).2.length ≤ syncMaxRetries - a := by
    intro k
    induction k with
    | zero =>
      intro a ha
      obtain ⟨r, hr⟩ := syncAttempt_done_of_cap env a (by omega)
      rw [runSync_done env a r hr]
      simp
    | succ k ih =>
      intro a ha
      cases h : syncAttempt env a with
      | done r => rw [runSync_done env a r h]; simp
      | retryIn d =>
        obtain ⟨_, _, hcap⟩ := syncAttempt_retry_inv env a d h
        rw [runSync_retry env a d h]
        have := ih (a + 1) (by omega)
        simp only [List.length_cons]
        omega
  have hdel : ∀ k a, syncMaxRetries + 1 ≤ a + k →
      ∀ q ∈ (runSync env a).2, q.2 = 120 * (q.1 + 1) := by
    intro k
    induction k with
    | zero =>
      intro a ha q hq
      obtain ⟨r, hr⟩ := syncAttempt_done_of_cap env a (by omega)
      rw [runSync_done env a r hr] at hq
      simp at hq
    | succ k ih =>
      intro a ha q hq
      cases h : syncAttempt env a with
      | done r => rw [runSync_done env a r h] at hq; simp at hq
      | retryIn d =>
        obtain ⟨_, hd, _⟩ := syncAttempt_retry_inv env a d h
        rw [runSync_retry env a d h] at hq
        simp only [List.mem_cons] at hq
        rcases hq with hq | hq
        · rw [hq, hd]
        · exact ih (a + 1) (by omega) q hq
  refine ⟨syncAttempt_retry_inv env, ?_, ?_, ?_, ?_⟩
  · have := hlen (syncMaxRetries + 1) 0 (by omega)
    simpa using this
  · exact hdel (syncMaxRetries + 1) 0 (by omega)
  · intro hall
    have step : ∀ a, a < syncMaxRetries →
        syncAttempt env a = .retryIn (120 * (a + 1)) := by
      intro a ha
      obtain ⟨m, hm, hr⟩ := hall a (by omega)
      unfold syncAttempt
      rw [hm]
      dsimp only
      rw [if_pos (by simp [hr]; omega)]
    obtain ⟨m3, hm3, _⟩ := hall syncMaxRetries (by omega)
    have h3 : syncAttempt env syncMaxRetries =
        .done (taskErrorResult m3) := by
      unfold syncAttempt
      rw [hm3]
      dsimp only
      rw [if_neg (by simp [syncMaxRetries])]
    have e0 := runSync_retry env 0 120 (by simpa using step 0 (by decide))
    have e1 := runSync_retry env 1 240 (by simpa using step 1 (by decide))
    have e2 := runSync_retry env 2 360 (by simpa using step 2 (by decide))
    have e3 := runSync_done env 3 (taskErrorResult m3) h3
    rw [e0, e1, e2, e3]
    exact ⟨rfl, rfl, rfl⟩
  · intro hx hc hv
    have hb : syncBody (env 0) =
        .ok { success := false, error := "authentication_failed",
              messageHe := (env 0).validation.messageHe,
              messageEn := (env 0).validation.messageEn } := by
      unfold syncBody
      rw [hx, hc, hv]
      simp
    exact runSync_done env 0 _ (by unfold syncAttempt; rw [hb])

/-- Witness for C9: an always-raising retryable environment exhausts the three
retries with the right delays and fails; a rejected-credentials environment
returns authentication_failed with no retries. -/
theorem C9_retry_policy_witness :
    ((runSync c9RetryEnv 0).1.error = "task_error" ∧
      (runSync c9RetryEnv 0).1.success = false ∧
      (runSync c9RetryEnv 0).2 = [(0, 120), (1, 240), (2, 360)]) ∧
    runSync c9AuthFailEnv 0 =
      ({ success := false, error := "authentication_failed",
         messageHe := (c9AuthFailEnv 0).validation.messageHe,
         messageEn := (c9AuthFailEnv 0).validation.messageEn }, []) := by
  refine ⟨(C9_retry_policy c9RetryEnv).2.2.2.1 ?_,
    (C9_retry_policy c9AuthFailEnv).2.2.2.2 rfl rfl rfl⟩
  intro n _
  exact ⟨"Network connection timeout", rfl, by decide⟩

/-- Claim C10 (confirmed): in `DevMoodleValidator.validate`, whenever a
queried error selector yields an element with non-empty text, the final
decision is failure (`invalid_credentials`) — the explicit error overrides
any URL- or element-based success evidence. -/
theorem C10_error_overrides (env : DevEnv) (un pw : String)
    (h0 : env.navRaises = none)
    (h1 : devTryFillField env.prePage devUsernameSelectors un = true)
    (h2 : devTryFillField env.prePage devPasswordSelectors pw = true)
    (h3 : devTryClickButton env.prePage = true)
    (h4 : env.submitRaises = none)
    (h5 : devHasLoginError env.postPage = true) :
    (devValidate env un pw).success = false ∧
    (devValidate env un pw).result = "invalid_credentials" ∧
    (devValidate env un pw).error = "INVALID_CREDENTIALS" := by
  unfold devValidate
  rw [h0]
  simp only [h1, h2, h3, h4, h5, Bool.not_true, Bool.or_false,
    Bool.and_false, Bool.false_eq_true, if_false, if_true]
  simp

/-- Witness for C10: a post-submit page on a success URL with an explicit
error banner still comes out as a failed validation. -/
theorem C10_error_overrides_witness :
    devUrlSuccess c10WitEnv.postPage = true ∧
    ((devValidate c10WitEnv "student10" "pw10").success = false ∧
      (devValidate c10WitEnv "student10" "pw10").result =
        "invalid_credentials" ∧
      (devValidate c10WitEnv "student10" "pw10").error =
        "INVALID_CREDENTIALS") :=
  ⟨by decide, C10_error_overrides c10WitEnv "student10" "pw10" rfl
    (by decide) (by decide) (by decide) rfl (by decide)⟩

end Spike
